import Mathlib

/-!
# Verification of the marketing-analytics CSV pipelines

Shallow embedding of the three analysis scripts
(`lib/analysis/channels.py`, `lib/analysis/keywords.py`,
`lib/analysis/helium.py`) and proofs about the claims of the
specification.

Modelling conventions:
* A pandas cell is `Cell`: a text value, an integer value, or a missing
  value (NaN/None).  Integer counts are modelled with `Int` (the data are
  integer counts; `pd.to_numeric` of a non-numeric string is modelled as
  missing).
* A `DataFrame` row is an association list `List (String × Cell)`; a
  data frame is a header (column list) together with the rows.
* File-system side effects (`os.makedirs`, `savefig`, `to_csv`) are
  returned explicitly as a list of write events next to the result
  object, so that "no files are written" is a statement about a value.
* Exceptions are modelled with `Except`/explicit error branches; the
  `try/except` wrapper of each `run_analysis` maps any such failure to
  the in-band `success = false` result, exactly as the Python code does.
-/

/-- A single cell of a data frame: a string, an integer, or missing
(`NaN`). -/
inductive Cell where
  | str (s : String)
  | num (n : Int)
  | na
deriving DecidableEq, Repr

/-- A row of a data frame: an association list from column names to
cells. -/
abbrev Row := List (String × Cell)

/-- A data frame: a header (the column names, in order) and the rows. -/
structure DataFrame where
  cols : List String
  rows : List Row
deriving DecidableEq, Repr

/-- Lookup of a cell in a row by column name; a missing column reads as
a missing value. -/
def getCellR (r : Row) (c : String) : Cell :=
  match r.find? (fun p => p.1 == c) with
  | some p => p.2
  | none => Cell.na

/-- Deduplication by key with a seen-keys accumulator (structural, so
that concrete witnesses evaluate by `decide`). -/
def dropDupsByAux {α β : Type} [DecidableEq β] (key : α → β)
    (seen : List β) : List α → List α
  | [] => []
  | x :: xs =>
    if seen.contains (key x) then dropDupsByAux key seen xs
    else x :: dropDupsByAux key (key x :: seen) xs

/-- Keep the first occurrence of every key (pandas `drop_duplicates`,
and the iteration order of a Python `set` modelled as first-appearance
order). -/
def dropDupsBy {α β : Type} [DecidableEq β] (key : α → β)
    (l : List α) : List α :=
  dropDupsByAux key [] l

/-- Python `set` of a list of values. -/
def pySet {α : Type} [DecidableEq α] (l : List α) : List α :=
  dropDupsBy id l

/-- `', '.join(xs)`. -/
def joinComma : List String → String
  | [] => ""
  | [s] => s
  | s :: rest => s ++ ", " ++ joinComma rest

/-- The whitespace characters removed by Python `str.strip()`
(restricted to the ASCII whitespace that can occur in the CSV data). -/
def isSpc (c : Char) : Bool :=
  c.toNat = 32 || c.toNat = 9 || c.toNat = 10 || c.toNat = 13 ||
    c.toNat = 11 || c.toNat = 12

/-- Remove trailing whitespace. -/
def dropTrail (l : List Char) : List Char :=
  (l.reverse.dropWhile isSpc).reverse

/-- Python `str.strip()` on the character list. -/
def stripChars (l : List Char) : List Char :=
  dropTrail (l.dropWhile isSpc)

/-- ASCII lower-casing of one character (Python `str.lower()` on the
ASCII data appearing in these CSVs). -/
def lowerChar (c : Char) : Char :=
  if 65 ≤ c.toNat ∧ c.toNat ≤ 90 then Char.ofNat (c.toNat + 32) else c

/-- Python `str.strip()`. -/
def pyStrip (s : String) : String := ⟨stripChars s.data⟩

/-- Python `str.lower()`. -/
def pyLower (s : String) : String := ⟨s.data.map lowerChar⟩

/-- Parse an optionally signed decimal integer (model of
`pd.to_numeric` on a string; the counts in these files are integer
literals, any other string is a failed parse). -/
def parseIntQ (s : String) : Option Int :=
  match s.data with
  | [] => none
  | '-' :: ds =>
      if ds ≠ [] ∧ ds.all Char.isDigit then
        some (-(Int.ofNat (ds.foldl (fun a c => a * 10 + (c.toNat - 48)) 0)))
      else none
  | ds =>
      if ds.all Char.isDigit then
        some (Int.ofNat (ds.foldl (fun a c => a * 10 + (c.toNat - 48)) 0))
      else none

/-- Python `str.split(',')` on the character list: `""` splits to
`[""]`, a trailing comma yields a trailing empty part. -/
def splitComma : List Char → List (List Char)
  | [] => [[]]
  | c :: rest =>
    if c = ',' then [] :: splitComma rest
    else
      match splitComma rest with
      | g :: gs => (c :: g) :: gs
      | [] => [[c]]

/-- Python `str.split(',')`. -/
def pySplitComma (s : String) : List String :=
  (splitComma s.data).map (fun l => ⟨l⟩)

/-- Is `needle` a contiguous substring of `hay` (Python `in` on
strings)? -/
def subOf (needle : List Char) : List Char → Bool
  | [] => needle.isEmpty
  | c :: rest => needle.isPrefixOf (c :: rest) || subOf needle rest

/-- Insertion into a list sorted by `le` (used by `sortBy`). -/
def insSorted {α : Type} (le : α → α → Bool) (x : α) : List α → List α
  | [] => [x]
  | y :: ys => if le x y then x :: y :: ys else y :: insSorted le x ys

/-- Insertion sort (the model of `sort_values`; only the multiset of
rows matters for the properties proved below). -/
def sortBy {α : Type} (le : α → α → Bool) : List α → List α
  | [] => []
  | x :: xs => insSorted le x (sortBy le xs)

/-- An artifact record `{name, type, path}` of a result object. -/
structure Artifact where
  name : String
  type : String
  path : String
deriving DecidableEq, Repr

/-- A file-system write performed by a pipeline. -/
inductive WriteEvent where
  | png (path : String)
  | csvFile (path : String) (content : String)
deriving DecidableEq, Repr

/-- The file-system effects of one `run_analysis` call. -/
structure Effects where
  dirCreated : Bool
  writes : List WriteEvent
deriving DecidableEq, Repr

/-- No file-system activity. -/
def Effects.none : Effects := ⟨false, []⟩

/-- `pd.to_numeric(x, errors='coerce')` on one cell. -/
def cellToNumeric : Cell → Cell
  | Cell.num n => Cell.num n
  | Cell.str s =>
      match parseIntQ s with
      | some n => Cell.num n
      | none => Cell.na
  | Cell.na => Cell.na

/-- `.fillna(0)` on one cell. -/
def fillZero : Cell → Cell
  | Cell.na => Cell.num 0
  | c => c

/-- `.str.strip().str.lower()` on one cell (pandas `.str` methods map a
non-string value to missing). -/
def cellStripLower : Cell → Cell
  | Cell.str s => Cell.str (pyLower (pyStrip s))
  | _ => Cell.na

/-- `astype('int64')` / `astype('string')`: a dtype annotation; the
values have already been coerced when it is applied, so it is the
identity on the cell values in this model. -/
def astypeCell (c : Cell) : Cell := c

/-- Is the cell a numeric value or missing?  A pandas column read from
CSV has a numeric dtype exactly when every cell parsed as a number or is
missing. -/
def cellIsNumLike : Cell → Bool
  | Cell.num _ => true
  | Cell.na => true
  | Cell.str _ => false

/-- The integer value of a cell (missing and text count as 0, as in a
pandas sum over a numeric column after `fillna`). -/
def cellInt : Cell → Int
  | Cell.num n => n
  | _ => 0

/-- The columns of `required` missing from the data frame
(`required_cols - set(df.columns)`), in the order of `required`. -/
def missingCols (df : DataFrame) (required : List String) : List String :=
  required.filter (fun c => !(df.cols.contains c))

/-- The `"Missing columns: ..."` message (both `validate_df_structure`
functions that report missing columns build this same string). -/
def missingMsg (missing : List String) : String :=
  "Missing columns: " ++ joinComma missing

/-- All cells of a column. -/
def colCells (df : DataFrame) (c : String) : List Cell :=
  df.rows.map (fun r => getCellR r c)

/-- `pd.api.types.is_numeric_dtype(df[col])`. -/
def isNumericDtype (df : DataFrame) (c : String) : Bool :=
  (colCells df c).all cellIsNumLike

namespace Channels

/-- `validate_columns`: are all required columns present? -/
def validate_columns (df : DataFrame) (required : List String) : Bool :=
  (missingCols df required).isEmpty

/-- The per-column dtype error messages of the channel validator. -/
def dtypeErrors (df : DataFrame) (numeric : List String) : List String :=
  (numeric.filter (fun c => !isNumericDtype df c)).map
    (fun c => s!"{c} column must contain only numbers.")

/-- `validate_df_structure` of `channels.py`: missing columns, then the
numeric-columns-within-required check, then the per-column dtype
check. -/
def validate_df_structure (df : DataFrame) (required numeric : List String) :
    Bool × List String :=
  if !(missingCols df required).isEmpty then
    (false, [missingMsg (missingCols df required)])
  else if !(numeric.all (fun c => required.contains c)) then
    (false, ["Numeric columns not in required columns."])
  else
    ((dtypeErrors df numeric).isEmpty, dtypeErrors df numeric)

/-- `raw_df[list(required_cols)]`: select the required columns, in
order. -/
def rowSelect (required : List String) (r : Row) : Row :=
  required.map (fun c => (c, getCellR r c))

/-- The per-cell transformation of `clean_df`: `Target` is stripped and
lower-cased first, then every numeric column is coerced with
`pd.to_numeric(..., errors='coerce').fillna(0)`. -/
def transformCell (numeric : List String) (name : String) (cell : Cell) : Cell :=
  let c1 := if name = "Target" then cellStripLower cell else cell
  if numeric.contains name then fillZero (cellToNumeric c1) else c1

/-- `clean_df` of `channels.py`: select required columns, normalise
`Target`, coerce numeric columns, drop rows with missing/empty `Target`,
drop duplicate `Target`s (first wins), fix dtypes.

(A `KeyError` raised by the real code when `'Target'` is not among the
selected columns corresponds here to every row reading a missing
`Target` and being dropped; both ways the run produces no cleaned
rows.) -/
def clean_df (df : DataFrame) (required numeric : List String) : DataFrame :=
  let selected := df.rows.map (rowSelect required)
  let transformed := selected.map
    (fun r => r.map (fun p => (p.1, transformCell numeric p.1 p.2)))
  let dropped := transformed.filter (fun r => getCellR r "Target" ≠ Cell.na)
  let nonempty := dropped.filter (fun r => getCellR r "Target" ≠ Cell.str "")
  let deduped := dropDupsBy (fun r => getCellR r "Target") nonempty
  let casted := deduped.map (fun r => r.map (fun p => (p.1, astypeCell p.2)))
  ⟨required, casted⟩

/-- `clean_data[col].sum()`. -/
def colSum (df : DataFrame) (c : String) : Int :=
  (df.rows.map (fun r => cellInt (getCellR r c))).sum

/-- `row[list(numeric_cols)].sum()`. -/
def rowSum (numeric : List String) (r : Row) : Int :=
  (numeric.map (fun c => cellInt (getCellR r c))).sum

/-- Python `max(d, key=d.get)` over a non-empty association list: the
first key whose value is maximal. -/
def pyMaxByVal (x : String × Int) (xs : List (String × Int)) : String × Int :=
  xs.foldl (fun best y => if y.2 > best.2 then y else best) x

/-- The summary mapping of a successful channel run. -/
structure Summary where
  total_traffic : Int
  channel_breakdown : List (String × Int)
  target_breakdown : List (String × Int)
  top_channel : String
  top_target : Option Cell
deriving DecidableEq, Repr

/-- The result object `{success, errors, artifacts, summary}` of the
channel pipeline (`summary` is `none` before the summary is built —
the empty mapping `{}` of the Python code). -/
structure AnalysisResult where
  success : Bool
  errors : List String
  artifacts : List Artifact
  summary : Option Summary
deriving DecidableEq, Repr

/-- A failed result with the given error list. -/
def failRes (errs : List String) : AnalysisResult :=
  ⟨false, errs, [], none⟩

/-- One CSV cell rendered by `to_csv`. -/
def cellCsv : Cell → String
  | Cell.str s => s
  | Cell.num n => toString n
  | Cell.na => ""

/-- `to_csv(index=False)` of a cleaned data frame. -/
def csvOfDF (df : DataFrame) : String :=
  joinComma (df.cols) ++ "\x0a" ++
    String.intercalate "\x0a"
      (df.rows.map (fun r => joinComma (df.cols.map (fun c => cellCsv (getCellR r c)))))

/-- The default `required_columns`. -/
def defaultRequired : List String :=
  ["Target", "Direct", "Referral", "Organic Search", "Paid Search",
   "Organic Social", "Paid Social", "Email", "Display Ads"]

/-- The default `numeric_columns`. -/
def defaultNumeric : List String :=
  ["Direct", "Referral", "Organic Search", "Paid Search",
   "Organic Social", "Paid Social", "Email", "Display Ads"]

/-- The recognised configuration options of the channel pipeline. -/
structure Config where
  required_columns : List String := defaultRequired
  numeric_columns : List String := defaultNumeric
deriving Repr

/-- `run_analysis` of `channels.py`.  The input is the outcome of
`pd.read_csv` (a raised read error is caught by the `except` and turned
into an in-band failure).  The returned pair is the result object
together with the file-system effects of the call. -/
def run_analysis (input : Except String DataFrame) (outputDir : String)
    (config : Config) : AnalysisResult × Effects :=
  match input with
  | Except.error e => (failRes ["Analysis error: " ++ e], Effects.none)
  | Except.ok df =>
    let required := pySet config.required_columns
    let numeric := pySet config.numeric_columns
    match validate_df_structure df required numeric with
    | (false, errs) => (failRes errs, Effects.none)
    | (true, _) =>
      let cd := clean_df df required numeric
      -- `os.makedirs(output_dir, exist_ok=True)`
      -- the three pandas `.plot` calls raise `no numeric data to plot`
      -- when the cleaned frame has no rows or no numeric columns
      if cd.rows.isEmpty || numeric.isEmpty then
        (failRes ["Analysis error: no numeric data to plot"], ⟨true, []⟩)
      else
        let chartArts : List Artifact :=
          [⟨"traffic_by_channel.png", "chart", outputDir ++ "/traffic_by_channel.png"⟩,
           ⟨"channel_mix_by_target.png", "chart", outputDir ++ "/channel_mix_by_target.png"⟩,
           ⟨"channel_comparison.png", "chart", outputDir ++ "/channel_comparison.png"⟩]
        let channelTotals := numeric.map (fun c => (c, colSum cd c))
        match channelTotals with
        | [] =>
          -- unreachable (`numeric` is non-empty): `max()` on an empty dict
          (failRes ["Analysis error: max() arg is an empty sequence"], ⟨true, chartArts.map (fun a => WriteEvent.png a.path)⟩)
        | t0 :: ts =>
          let targetTotals := cd.rows.map
            (fun r => (getCellR r "Target", rowSum numeric r))
          let summary : Summary :=
            { total_traffic := (channelTotals.map (fun p => p.2)).sum
              channel_breakdown := channelTotals
              target_breakdown := cd.rows.map
                (fun r => (cellCsv (getCellR r "Target"), rowSum numeric r))
              top_channel := (pyMaxByVal t0 ts).1
              top_target :=
                match targetTotals with
                | [] => none
                | y :: ys =>
                  some (ys.foldl (fun best z => if z.2 > best.2 then z else best) y).1 }
          let csvPath := outputDir ++ "/channel_analysis.csv"
          ({ success := true
             errors := []
             artifacts := chartArts ++ [⟨"channel_analysis.csv", "csv", csvPath⟩]
             summary := some summary },
           ⟨true, chartArts.map (fun a => WriteEvent.png a.path) ++
              [WriteEvent.csvFile csvPath (csvOfDF cd)]⟩)

end Channels

namespace Keywords

/-- Parse an ISO `YYYY-MM-DD` date string into (year, month, day); the
model of `pd.to_datetime` on the timestamp strings of these files (any
other string is an unparseable date). -/
def parseDateYMD (s : String) : Option (Nat × Nat × Nat) :=
  match s.data with
  | [y1, y2, y3, y4, h1, m1, m2, h2, d1, d2] =>
    if (y1.isDigit && y2.isDigit && y3.isDigit && y4.isDigit &&
        (h1 = '-') && m1.isDigit && m2.isDigit && (h2 = '-') &&
        d1.isDigit && d2.isDigit) then
      let y := ((y1.toNat - 48) * 10 + (y2.toNat - 48)) * 100 +
               ((y3.toNat - 48) * 10 + (y4.toNat - 48))
      let m := (m1.toNat - 48) * 10 + (m2.toNat - 48)
      let d := (d1.toNat - 48) * 10 + (d2.toNat - 48)
      if 1 ≤ m ∧ m ≤ 12 ∧ 1 ≤ d ∧ d ≤ 31 then some (y, m, d) else none
    else none
  | _ => none

/-- `pd.to_datetime` succeeds on this cell (missing becomes `NaT`
without raising; numbers are epoch offsets and never raise). -/
def cellTsOk : Cell → Bool
  | Cell.str s => (parseDateYMD s).isSome
  | _ => true

/-- `pd.Period(ts, 'M')` / `.dt.to_period('M')`: months since year 0. -/
def toPeriodM (d : Nat × Nat × Nat) : Int :=
  (d.1 : Int) * 12 + ((d.2.1 : Int) - 1)

/-- The content error messages of the keyword validator: numeric dtypes
of `Traffic` and `Search Volume`, and a parseable `Timestamp` column.
(The real invalid-dates message interpolates the exception text; the
model uses a fixed message.) -/
def contentErrors (df : DataFrame) : List String :=
  (if !isNumericDtype df "Traffic" then
    ["'Traffic' column must contain only numbers."] else []) ++
  (if !isNumericDtype df "Search Volume" then
    ["'Search Volume' column must contain only numbers."] else []) ++
  (if !(colCells df "Timestamp").all cellTsOk then
    ["'Timestamp' column contains invalid dates."] else [])

/-- `validate_df_structure` of `keywords.py`: required columns first,
then the content checks. -/
def validate_df_structure (df : DataFrame) (required : List String) :
    Bool × List String :=
  if !(missingCols df required).isEmpty then
    (false, [missingMsg (missingCols df required)])
  else
    ((contentErrors df).isEmpty, contentErrors df)

/-- A cleaned keyword row before intent explosion: one row per raw CSV
row that survived the key/timestamp dropping, with the derived
`YearMonth` and the raw `Keyword Intents` cell. -/
structure RowKM where
  keyword : String
  traffic : Int
  searchVol : Int
  yearMonth : Int
  intents : Cell
deriving DecidableEq, Repr

/-- Steps 1–5 of `clean_df`: select required columns, strip/lower-case
`Keyword`, coerce `Traffic` and `Search Volume`
(`to_numeric(...).fillna(0)`), parse `Timestamp`
(`to_datetime(..., errors='coerce')`), drop rows with a missing
`Keyword` or `Timestamp` (`dropna(subset=['Keyword', 'Timestamp'])`)
and derive `YearMonth`.  (A numeric timestamp cell — an epoch offset in
pandas — is modelled as unparsed and dropped; the timestamps of these
files are date strings.) -/
def cleanRows (df : DataFrame) (required : List String) : List RowKM :=
  (df.rows.map (Channels.rowSelect required)).filterMap (fun r =>
    match cellStripLower (getCellR r "Keyword"),
          getCellR r "Timestamp" with
    | Cell.str k, Cell.str ts =>
      match parseDateYMD ts with
      | some d =>
        some { keyword := k
               traffic := cellInt (fillZero (cellToNumeric (getCellR r "Traffic")))
               searchVol := cellInt (fillZero (cellToNumeric (getCellR r "Search Volume")))
               yearMonth := toPeriodM d
               intents := getCellR r "Keyword Intents" }
      | none => none
    | _, _ => none)

/-- Step 6 of `clean_df`: drop rows whose cleaned keyword is the empty
string. -/
def dropEmptyKw (rows : List RowKM) : List RowKM :=
  rows.filter (fun r => r.keyword ≠ "")

/-- The `groupby` key of the reconciliation step: `Keyword`,
`YearMonth` and the raw `Keyword Intents` value. -/
def rkey (r : RowKM) : String × Int × Cell :=
  (r.keyword, r.yearMonth, r.intents)

/-- The maximum of a list of integers (`'max'` aggregation over a
non-empty group). -/
def maxD : List Int → Int
  | [] => 0
  | x :: xs => xs.foldl max x

/-- The reconciliation
`groupby(['Keyword', 'YearMonth', 'Keyword Intents']).agg({'Traffic': 'sum', 'Search Volume': 'max'})`:
one row per key, traffic summed, search volume maxed.  Rows whose
`Keyword Intents` is missing are dropped (pandas `groupby` drops `NaN`
keys).  Group order is modelled as first appearance; the result is
immediately re-sorted anyway. -/
def validRows (rows : List RowKM) : List RowKM :=
  rows.filter (fun r => r.intents ≠ Cell.na)

/-- The group keys, first appearance order (the result is re-sorted
immediately afterwards). -/
def reconKeys (rows : List RowKM) : List (String × Int × Cell) :=
  dropDupsBy id ((validRows rows).map rkey)

/-- The aggregated row of one group: traffic summed, search volume
maxed. -/
def aggRow (rows : List RowKM) (k : String × Int × Cell) : RowKM :=
  { keyword := k.1
    yearMonth := k.2.1
    intents := k.2.2
    traffic := (((validRows rows).filter (fun r => rkey r = k)).map
      (fun r => r.traffic)).sum
    searchVol := maxD (((validRows rows).filter (fun r => rkey r = k)).map
      (fun r => r.searchVol)) }

def reconcileRows (rows : List RowKM) : List RowKM :=
  (reconKeys rows).map (aggRow rows)

/-- `sort_values(by=['Traffic', 'Search Volume'], ascending=False)`. -/
def sortReconciled (rows : List RowKM) : List RowKM :=
  sortBy (fun a b =>
    a.traffic > b.traffic ||
    (a.traffic = b.traffic && a.searchVol ≥ b.searchVol)) rows

/-- A cleaned keyword row after intent explosion. -/
structure RowKE where
  keyword : String
  traffic : Int
  searchVol : Int
  yearMonth : Int
  intent : String
deriving DecidableEq, Repr

/-- `.fillna('').str.split(',')` on the raw `Keyword Intents` value
(missing keys were already dropped by the `groupby`; a numeric value
splits to no string parts and its rows disappear at the `isin`
filter). -/
def splitRawIntents : Cell → List String
  | Cell.str s => pySplitComma s
  | _ => []

/-- `.assign(Intent=...).explode('Intent')`: one output row per split
part, each carrying the row's traffic and search volume. -/
def explodeIntents (rows : List RowKM) : List RowKE :=
  rows.flatMap (fun r =>
    (splitRawIntents r.intents).map (fun p =>
      { keyword := r.keyword
        traffic := r.traffic
        searchVol := r.searchVol
        yearMonth := r.yearMonth
        intent := p }))

/-- `df_with_intents['Intent'].str.strip().str.lower()`. -/
def normIntents (rows : List RowKE) : List RowKE :=
  rows.map (fun r => { r with intent := pyLower (pyStrip r.intent) })

/-- `df_with_intents[df_with_intents['Intent'].isin(valid_intents)]`:
rows with an out-of-vocabulary intent are dropped, no error is
recorded. -/
def filterIntents (valid : List String) (rows : List RowKE) : List RowKE :=
  rows.filter (fun r => valid.contains r.intent)

/-- `clean_df` of `keywords.py`, steps 1–11 composed (the final
`astype` is a dtype annotation and the drop of the `Keyword Intents`
column is the projection onto `RowKE`). -/
def clean_df (df : DataFrame) (required valid : List String) : List RowKE :=
  filterIntents valid
    (normIntents
      (explodeIntents
        (sortReconciled
          (reconcileRows
            (dropEmptyKw (cleanRows df required))))))

/-- A cleaned keyword row with the derived branded/non-branded
`Category`. -/
structure RowKC where
  keyword : String
  traffic : Int
  searchVol : Int
  yearMonth : Int
  intent : String
  category : String
deriving DecidableEq, Repr

/-- The branded/non-branded classification:
`np.where(keyword.str.contains('|'.join(brand_keywords), case=False), 'branded', 'non-branded')`
— a case-insensitive substring match against any brand keyword. -/
def categoryOf (brand : List String) (kw : String) : String :=
  if brand.any (fun b => subOf (pyLower b).data (pyLower kw).data) then
    "branded"
  else "non-branded"

/-- Attach the `Category` column. -/
def addCategory (brand : List String) (rows : List RowKE) : List RowKC :=
  rows.map (fun r =>
    { keyword := r.keyword
      traffic := r.traffic
      searchVol := r.searchVol
      yearMonth := r.yearMonth
      intent := r.intent
      category := categoryOf brand r.keyword })

/-- `clean_data['YearMonth'].max()`. -/
def maxYm (rows : List RowKC) : Option Int :=
  (rows.map (fun r => r.yearMonth)).max?

/-- The window filter of `run_analysis`: an explicit
`config['date_range']`, or the default
`[max YearMonth - 5, max YearMonth]` when none is given.  On an empty
cleaned dataset the default bounds are `NaT` and every comparison is
false, so nothing is kept. -/
def filterWindow (dateRange : Option (Int × Int)) (rows : List RowKC) :
    List RowKC :=
  match dateRange with
  | some (s, e) => rows.filter (fun r => s ≤ r.yearMonth ∧ r.yearMonth ≤ e)
  | none =>
    match maxYm rows with
    | some e => rows.filter (fun r => e - 5 ≤ r.yearMonth ∧ r.yearMonth ≤ e)
    | none => []

/-- `str(period)` for a month period: `YYYY-MM`. -/
def periodStr (p : Int) : String :=
  let m := p.emod 12 + 1
  toString (p.ediv 12) ++ "-" ++ (if m < 10 then "0" ++ toString m else toString m)

/-- Group totals `groupby(key)['Traffic'].sum()` over the given rows
with the given key projection (keys in first-appearance order). -/
def trafficTotals {α : Type} [DecidableEq α] (key : RowKC → α)
    (rows : List RowKC) : List (α × Int) :=
  (dropDupsBy id (rows.map key)).map (fun k =>
    (k, ((rows.filter (fun r => key r = k)).map (fun r => r.traffic)).sum))

/-- `category_totals`: drop duplicate `(Keyword, YearMonth)` rows, then
sum traffic per category. -/
def categoryTotals (rows : List RowKC) : List (String × Int) :=
  trafficTotals (fun r => r.category)
    (dropDupsBy (fun r => (r.keyword, r.yearMonth)) rows)

/-- `intent_totals`: drop duplicate `(Keyword, YearMonth, Intent)` rows,
then sum traffic per intent. -/
def intentTotals (rows : List RowKC) : List (String × Int) :=
  trafficTotals (fun r => r.intent)
    (dropDupsBy (fun r => (r.keyword, r.yearMonth, r.intent)) rows)

/-- Association-list lookup with a default (`dict.get(k, 0)`). -/
def lookupD (l : List (String × Int)) (k : String) : Int :=
  match l.find? (fun p => p.1 == k) with
  | some p => p.2
  | none => 0

/-- The summary mapping of a successful keyword run. -/
structure Summary where
  total_keywords : Nat
  branded_traffic : Int
  non_branded_traffic : Int
  intent_breakdown : List (String × Int)
  date_range_start : String
  date_range_end : String
deriving DecidableEq, Repr

/-- The result object of the keyword pipeline. -/
structure AnalysisResult where
  success : Bool
  errors : List String
  artifacts : List Artifact
  summary : Option Summary
deriving DecidableEq, Repr

/-- A failed result with the given error list. -/
def failRes (errs : List String) : AnalysisResult :=
  ⟨false, errs, [], none⟩

/-- `filtered_df.to_csv(...)`: the processed-CSV artifact content. -/
def kwCsv (rows : List RowKC) : String :=
  "Keyword,YearMonth,Traffic,Search Volume,Intent,Category\x0a" ++
    String.intercalate "\x0a" (rows.map (fun r =>
      joinComma [r.keyword, periodStr r.yearMonth, toString r.traffic,
                 toString r.searchVol, r.intent, r.category]))

/-- The default `required_columns`. -/
def defaultRequired : List String :=
  ["Keyword", "Traffic", "Search Volume", "Timestamp", "Keyword Intents"]

/-- The default `valid_intents`. -/
def defaultIntents : List String :=
  ["commercial", "informational", "transactional", "navigational"]

/-- The recognised configuration options of the keyword pipeline
(`date_range` bounds are month periods). -/
structure Config where
  required_columns : List String := defaultRequired
  valid_intents : List String := defaultIntents
  brand_keywords : List String := ["flavour blaster", "flavourblaster"]
  date_range : Option (Int × Int) := none
deriving Repr

/-- `run_analysis` of `keywords.py`: read, validate, clean, classify,
window-filter, render three charts, summarise, save the processed CSV —
any raised error is caught and reported in-band. -/
def run_analysis (input : Except String DataFrame) (outputDir : String)
    (config : Config) : AnalysisResult × Effects :=
  match input with
  | Except.error e => (failRes ["Analysis error: " ++ e], Effects.none)
  | Except.ok df =>
    let required := pySet config.required_columns
    let valid := pySet config.valid_intents
    match validate_df_structure df required with
    | (false, errs) => (failRes errs, Effects.none)
    | (true, _) =>
      let cleanData := addCategory config.brand_keywords
        (clean_df df required valid)
      -- `os.makedirs(output_dir, exist_ok=True)`
      let startEnd : String × String :=
        match config.date_range with
        | some (s, e) => (periodStr s, periodStr e)
        | none =>
          match maxYm cleanData with
          | some e => (periodStr (e - 5), periodStr e)
          | none => ("NaT", "NaT")
      let filtered := filterWindow config.date_range cleanData
      -- chart 1: the bar plot raises `no numeric data to plot`
      -- on an empty window
      if filtered.isEmpty then
        (failRes ["Analysis error: no numeric data to plot"], ⟨true, []⟩)
      else
        let chart1 : Artifact :=
          ⟨"traffic_by_category.png", "chart", outputDir ++ "/traffic_by_category.png"⟩
        let catTotals := categoryTotals filtered
        -- chart 2: the donut legend divides by the total and raises on 0
        if ((catTotals.map (fun p => p.2)).sum = 0 : Bool) then
          (failRes ["Analysis error: division by zero"],
           ⟨true, [WriteEvent.png chart1.path]⟩)
        else
          let chart2 : Artifact :=
            ⟨"branded_split.png", "chart", outputDir ++ "/branded_split.png"⟩
          let intTotals := intentTotals filtered
          if ((intTotals.map (fun p => p.2)).sum = 0 : Bool) then
            (failRes ["Analysis error: division by zero"],
             ⟨true, [WriteEvent.png chart1.path, WriteEvent.png chart2.path]⟩)
          else
            let chart3 : Artifact :=
              ⟨"intent_distribution.png", "chart", outputDir ++ "/intent_distribution.png"⟩
            let summary : Summary :=
              { total_keywords := (pySet (filtered.map (fun r => r.keyword))).length
                branded_traffic := lookupD catTotals "branded"
                non_branded_traffic := lookupD catTotals "non-branded"
                intent_breakdown := intTotals
                date_range_start := startEnd.1
                date_range_end := startEnd.2 }
            let csvPath := outputDir ++ "/keyword_analysis.csv"
            ({ success := true
               errors := []
               artifacts := [chart1, chart2, chart3,
                 ⟨"keyword_analysis.csv", "csv", csvPath⟩]
               summary := some summary },
             ⟨true, [WriteEvent.png chart1.path, WriteEvent.png chart2.path,
                WriteEvent.png chart3.path,
                WriteEvent.csvFile csvPath (kwCsv filtered)]⟩)

end Keywords

namespace Helium

/-- The helium CSV as read: a row count and the columns (name and cell
list) in file order. -/
structure HDF where
  nrows : Nat
  cols : List (String × List Cell)
deriving DecidableEq, Repr

/-- Does the data frame have the column? -/
def hasCol (df : HDF) (c : String) : Bool :=
  (df.cols.map (fun p => p.1)).contains c

/-- Does the column name match the regex `^\d{4}-\d{2}-\d{2}$`? -/
def isDateFmt (s : String) : Bool :=
  match s.data with
  | [y1, y2, y3, y4, h1, m1, m2, h2, d1, d2] =>
    y1.isDigit && y2.isDigit && y3.isDigit && y4.isDigit &&
    (h1 = '-') && m1.isDigit && m2.isDigit && (h2 = '-') &&
    d1.isDigit && d2.isDigit
  | _ => false

/-- The date columns of the file, in order. -/
def dateCols (df : HDF) : List (String × List Cell) :=
  df.cols.filter (fun p => isDateFmt p.1)

/-- The cells of the `Metric` column. -/
def metricCells (df : HDF) : List Cell :=
  match df.cols.find? (fun p => p.1 == "Metric") with
  | some p => p.2
  | none => []

/-- `.str.lower()` over the metric cells (non-string values read as
missing through the `.str` accessor). -/
def lowerMetricCell : Cell → Cell
  | Cell.str s => Cell.str (pyLower s)
  | _ => Cell.na

/-- The six required metric labels (lower-case). -/
def requiredMetrics : List Cell :=
  [Cell.str "organic traffic", Cell.str "organic keywords",
   Cell.str "organic traffic cost", Cell.str "paid traffic",
   Cell.str "paid keywords", Cell.str "paid traffic cost"]

/-- Rendering of a metric-set element in an error message (`', '.join`
over a Python set that may contain a float `nan`). -/
def cellShow : Cell → String
  | Cell.str s => s
  | Cell.num n => toString n
  | Cell.na => "nan"

/-- The error message of the date-column count check. -/
def dateCountMsg (n : Nat) : String :=
  s!"File must have at least 3 date columns in format 'YYYY-MM-DD', but found {n}."

/-- The structural errors collected before the first early return of
the helium validator: exactly 6 rows, a `Metric` column, at least 3
`YYYY-MM-DD` date columns. -/
def structuralErrors (df : HDF) : List String :=
  (if df.nrows ≠ 6 then
    ["File must have exactly 6 rows, but it has " ++ toString df.nrows ++ "."]
  else []) ++
  (if !hasCol df "Metric" then
    ["File is missing the required 'Metric' column."] else []) ++
  (if (dateCols df).length < 3 then
    [dateCountMsg (dateCols df).length] else [])

/-- `set(df['Metric'].str.lower())`. -/
def fileMetricSet (df : HDF) : List Cell :=
  pySet ((metricCells df).map lowerMetricCell)

/-- `required_metrics - metric_values_in_file`. -/
def missingMetrics (df : HDF) : List Cell :=
  requiredMetrics.filter (fun m => !(fileMetricSet df).contains m)

/-- `metric_values_in_file - required_metrics`. -/
def extraMetrics (df : HDF) : List Cell :=
  (fileMetricSet df).filter (fun m => !requiredMetrics.contains m)

/-- The missing/extra metric messages. -/
def metricSetErrors (df : HDF) : List String :=
  (if !(missingMetrics df).isEmpty then
    ["Missing required metrics: " ++ joinComma ((missingMetrics df).map cellShow)] else []) ++
  (if !(extraMetrics df).isEmpty then
    ["Invalid metrics found: " ++ joinComma ((extraMetrics df).map cellShow)] else [])

/-- The date columns whose cells are not all integers. -/
def nonIntDateCols (df : HDF) : List (String × List Cell) :=
  (dateCols df).filter
    (fun p => !(p.2.all (fun c => match c with | Cell.num _ => true | _ => false)))

/-- `validate_df_structure` of `helium.py`: the structural checks, then
the string-dtype check, the case-insensitive metric-label set
comparison, and the integer dtype check of the date columns. -/
def validate_df_structure (df : HDF) : Bool × List String :=
  if !(structuralErrors df).isEmpty then
    (false, structuralErrors df)
  else
    -- `is_string_dtype or is_object_dtype`: fails only for a purely
    -- numeric column
    if (metricCells df).all cellIsNumLike then
      (false, ["'Metric' column must contain text/string data."])
    else
      if !(missingMetrics df).isEmpty || !(extraMetrics df).isEmpty then
        (false, metricSetErrors df)
      else
        if !(nonIntDateCols df).isEmpty then
          (false, ["Non-integer values in date columns: " ++
            joinComma ((nonIntDateCols df).map (fun p => p.1))])
        else
          (true, [])

/-- The columns dropped before reshaping. -/
def droppingCols : List String :=
  ["Target", "Target Type", "Database", "Summary"]

/-- `x != 0` on one cell: `NaN != 0` and `str != 0` are both true in
pandas. -/
def cellNeZero : Cell → Bool
  | Cell.num n => n ≠ 0
  | _ => true

/-- The cleaning stage of `run_analysis`: drop the auxiliary columns,
keep only columns with some value `!= 0`
(`cleaned_df.loc[:, (cleaned_df != 0).any()]`), then drop columns that
are entirely missing (`dropna(axis=1, how='all')`).  The
`astype('string')` of `Metric` is a dtype annotation. -/
def cleanCols (df : HDF) : List (String × List Cell) :=
  ((df.cols.filter (fun p => !droppingCols.contains p.1)).filter
    (fun p => p.2.any cellNeZero)).filter
    (fun p => !(p.2.all (fun c => c = Cell.na)))

/-- A calendar date (year, month, day). -/
abbrev Date := Nat × Nat × Nat

/-- Parse a `YYYY-MM-DD` column label as a date (the model of
`pd.to_datetime` on the melted `Date` column; a label that is not a
valid date raises). -/
def parseDateCol (s : String) : Option Date :=
  match s.data with
  | [y1, y2, y3, y4, h1, m1, m2, h2, d1, d2] =>
    if (y1.isDigit && y2.isDigit && y3.isDigit && y4.isDigit &&
        (h1 = '-') && m1.isDigit && m2.isDigit && (h2 = '-') &&
        d1.isDigit && d2.isDigit) then
      let y := ((y1.toNat - 48) * 10 + (y2.toNat - 48)) * 100 +
               ((y3.toNat - 48) * 10 + (y4.toNat - 48))
      let m := (m1.toNat - 48) * 10 + (m2.toNat - 48)
      let d := (d1.toNat - 48) * 10 + (d2.toNat - 48)
      if 1 ≤ m ∧ m ≤ 12 ∧ 1 ≤ d ∧ d ≤ 31 then some (y, m, d) else none
    else none
  | _ => none

/-- Lexicographic order on dates. -/
def dateLE (a b : Date) : Bool :=
  a.1 < b.1 || (a.1 = b.1 && (a.2.1 < b.2.1 ||
    (a.2.1 = b.2.1 && a.2.2 ≤ b.2.2)))

/-- The maximum of a non-empty date list. -/
def dateMax (d : Date) (ds : List Date) : Date :=
  ds.foldl (fun m x => if dateLE m x then x else m) d

/-- `end_date - pd.DateOffset(years=1)` (the leap-day clamping of the
real offset does not arise for these data). -/
def minusOneYear (d : Date) : Date :=
  (d.1 - 1, d.2.1, d.2.2)

/-- The value columns of the cleaned frame (everything melted besides
`Metric`), in order. -/
def valueCols (cleaned : List (String × List Cell)) :
    List (String × List Cell) :=
  cleaned.filter (fun p => p.1 ≠ "Metric")

/-- The metric labels of the cleaned frame, in row order. -/
def cleanedMetrics (cleaned : List (String × List Cell)) : List Cell :=
  match cleaned.find? (fun p => p.1 == "Metric") with
  | some p => p.2
  | none => []

/-- The value of the pivoted table at (metric row, value column):
`pivot_table(values='Value', index='Date', columns='Metric',
aggfunc='first')` keeps, for each date column, the value in the metric's
row. -/
def pivotVal (cells : List Cell) (metricIdx : Nat) : Int :=
  cellInt (cells.getD metricIdx Cell.na)

/-- The monthly aggregation `filtered_df.resample('ME').sum()` for one
metric row: the dated values of the window, summed per calendar
month. -/
def monthlySums (dates : List (Date × Int)) (months : List (Nat × Nat)) :
    List ((Nat × Nat) × Int) :=
  months.map (fun ym =>
    (ym, ((dates.filter (fun p => (p.1.1, p.1.2.1) = ym)).map
      (fun p => p.2)).sum))

/-- The summary mapping of a successful helium run (the float means are
kept as exact sum/length pairs). -/
structure Summary where
  total_organic_traffic : Int
  total_paid_traffic : Int
  avg_monthly_organic : Int × Nat
  avg_monthly_paid : Int × Nat
  date_range_start : Date
  date_range_end : Date
deriving DecidableEq, Repr

/-- The result object of the helium pipeline. -/
structure AnalysisResult where
  success : Bool
  errors : List String
  artifacts : List Artifact
  summary : Option Summary
deriving DecidableEq, Repr

/-- A failed result with the given error list. -/
def failRes (errs : List String) : AnalysisResult :=
  ⟨false, errs, [], none⟩

/-- One metric's windowed (date, value) series out of the cleaned
frame. -/
def metricSeries (metricIdx : Nat)
    (window : List (String × List Cell)) : List (Date × Int) :=
  window.filterMap (fun p =>
    (parseDateCol p.1).map (fun d => (d, pivotVal p.2 metricIdx)))

/-- The month keys of the window, in first-appearance order (the model
of the month-end resampling index; months absent from the window sum to
zero and are irrelevant to the claims below). -/
def windowMonths (dates : List Date) : List (Nat × Nat) :=
  pySet (dates.map (fun d => (d.1, d.2.1)))

/-- `str(metric) == 'Organic Traffic'` lookup: the row index of an
exact-case metric label. -/
def metricIdx (cleaned : List (String × List Cell)) (name : String) : Option Nat :=
  let cells := cleanedMetrics cleaned
  if cells.contains (Cell.str name) then
    some (cells.findIdx (fun c => c = Cell.str name))
  else none

/-- `run_analysis` of `helium.py`.  After validation and cleaning the
remaining non-`Metric` columns are melted and their labels parsed as
dates (raising on a stray non-date column), pivoted, windowed to the
trailing year, resampled monthly, charted twice, summarised and saved.
Chart and summary lookups use the exact-case labels
`'Organic Traffic'`, `'Organic Keywords'`, `'Paid Traffic'`,
`'Paid Traffic Cost'`, `'Paid Keywords'` and raise a `KeyError` when
the file's casing differs. -/
def run_analysis (input : Except String HDF) (outputDir : String) :
    AnalysisResult × Effects :=
  match input with
  | Except.error e => (failRes ["Analysis error: " ++ e], Effects.none)
  | Except.ok df =>
    match validate_df_structure df with
    | (false, errs) => (failRes errs, Effects.none)
    | (true, _) =>
      let cleaned := cleanCols df
      let vcols := valueCols cleaned
      if !(vcols.all (fun p => (parseDateCol p.1).isSome)) then
        (failRes ["Analysis error: unable to parse date column"], Effects.none)
      else
        match vcols.filterMap (fun p => parseDateCol p.1) with
        | [] =>
          -- `pivoted_df.index.max()` of an empty pivot has no valid
          -- window; the chart lookups below raise
          (failRes ["Analysis error: 'Organic Traffic'"], Effects.none)
        | d0 :: ds =>
          let endDate := dateMax d0 ds
          let startDate := minusOneYear endDate
          let window := vcols.filter (fun p =>
            match parseDateCol p.1 with
            | some d => dateLE startDate d && dateLE d endDate
            | none => false)
          match metricIdx cleaned "Organic Traffic",
                metricIdx cleaned "Organic Keywords",
                metricIdx cleaned "Paid Traffic",
                metricIdx cleaned "Paid Traffic Cost",
                metricIdx cleaned "Paid Keywords" with
          | some iOrg, some _iOrgKw, some iPaid, some _iCost, some _iPaidKw =>
            let orgSeries := metricSeries iOrg window
            let paidSeries := metricSeries iPaid window
            let months := windowMonths (orgSeries.map (fun p => p.1))
            let orgMonthly := monthlySums orgSeries months
            let paidMonthly := monthlySums paidSeries months
            let chart1 : Artifact := ⟨"organic_traffic_vs_keywords.png", "chart",
              outputDir ++ "/organic_traffic_vs_keywords.png"⟩
            let chart2 : Artifact := ⟨"paid_metrics.png", "chart",
              outputDir ++ "/paid_metrics.png"⟩
            let summary : Summary :=
              { total_organic_traffic := ((orgMonthly.map (fun p => p.2)).sum)
                total_paid_traffic := ((paidMonthly.map (fun p => p.2)).sum)
                avg_monthly_organic := ((orgMonthly.map (fun p => p.2)).sum, orgMonthly.length)
                avg_monthly_paid := ((paidMonthly.map (fun p => p.2)).sum, paidMonthly.length)
                date_range_start := startDate
                date_range_end := endDate }
            let csvPath := outputDir ++ "/processed_monthly_data.csv"
            ({ success := true
               errors := []
               artifacts := [chart1, chart2,
                 ⟨"processed_monthly_data.csv", "csv", csvPath⟩]
               summary := some summary },
             ⟨true, [WriteEvent.png chart1.path, WriteEvent.png chart2.path,
                WriteEvent.csvFile csvPath
                  (String.intercalate "," (months.map (fun ym => toString ym.1 ++ "-" ++ toString ym.2)))]⟩)
          | _, _, _, _, _ =>
            -- a `KeyError` on one of the exact-case metric labels
            (failRes ["Analysis error: metric label not found"], ⟨true, []⟩)

end Helium

/-! ## Helper lemmas: characters and normalised strings -/

/-- Is the character an upper-case ASCII letter? -/
def isUpperA (c : Char) : Bool :=
  decide (65 ≤ c.toNat) && decide (c.toNat ≤ 90)

theorem toNat_lowerChar_of_upper {c : Char} (h : 65 ≤ c.toNat ∧ c.toNat ≤ 90) :
    (lowerChar c).toNat = c.toNat + 32 := by
  have hv : (c.toNat + 32).isValidChar := Or.inl (by omega)
  rw [lowerChar, if_pos h, Char.ofNat, dif_pos hv]
  rfl

theorem lowerChar_eq_of_not_upper {c : Char}
    (h : ¬(65 ≤ c.toNat ∧ c.toNat ≤ 90)) : lowerChar c = c := by
  rw [lowerChar, if_neg h]

theorem isUpperA_lowerChar (c : Char) : isUpperA (lowerChar c) = false := by
  by_cases h : 65 ≤ c.toNat ∧ c.toNat ≤ 90
  · have h1 := toNat_lowerChar_of_upper h
    simp only [isUpperA, h1, Bool.and_eq_false_iff, decide_eq_false_iff_not]
    omega
  · rw [lowerChar_eq_of_not_upper h]
    simp only [isUpperA, Bool.and_eq_false_iff, decide_eq_false_iff_not]
    omega

theorem isSpc_lowerChar (c : Char) : isSpc (lowerChar c) = isSpc c := by
  by_cases h : 65 ≤ c.toNat ∧ c.toNat ≤ 90
  · have h1 := toNat_lowerChar_of_upper h
    refine Eq.trans (b := false) ?_ ?_
    · simp only [isSpc, h1, Bool.or_eq_false_iff, decide_eq_false_iff_not]
      omega
    · symm
      simp only [isSpc, Bool.or_eq_false_iff, decide_eq_false_iff_not]
      omega
  · rw [lowerChar_eq_of_not_upper h]

/-- The string starts with a non-space character (or is empty). -/
def noLeadSpace : List Char → Bool
  | [] => true
  | c :: _ => !isSpc c

/-- The normalised-text invariant: no upper-case ASCII letters, no
leading whitespace, no trailing whitespace. -/
def isLowerTrimmed (s : String) : Bool :=
  s.data.all (fun c => !isUpperA c) && noLeadSpace s.data &&
    noLeadSpace s.data.reverse

theorem noLeadSpace_dropWhile (l : List Char) :
    noLeadSpace (l.dropWhile isSpc) = true := by
  induction l with
  | nil => rfl
  | cons a l ih =>
    by_cases h : isSpc a
    · rw [List.dropWhile_cons_of_pos h]
      exact ih
    · rw [List.dropWhile_cons_of_neg h]
      simpa [noLeadSpace] using h

theorem noLeadSpace_of_append {x y : List Char}
    (h : noLeadSpace (x ++ y) = true) : noLeadSpace x = true := by
  cases x with
  | nil => rfl
  | cons c l => simpa [noLeadSpace] using h

theorem noLeadSpace_stripChars (l : List Char) :
    noLeadSpace (stripChars l) = true := by
  unfold stripChars dropTrail
  obtain ⟨t, ht⟩ := List.dropWhile_suffix (l := (l.dropWhile isSpc).reverse) (p := isSpc)
  have hsplit : l.dropWhile isSpc =
      ((l.dropWhile isSpc).reverse.dropWhile isSpc).reverse ++ t.reverse := by
    have := congrArg List.reverse ht
    simpa [List.reverse_append] using this.symm
  apply noLeadSpace_of_append (y := t.reverse)
  rw [← hsplit]
  exact noLeadSpace_dropWhile l

theorem noLeadSpace_stripChars_reverse (l : List Char) :
    noLeadSpace (stripChars l).reverse = true := by
  unfold stripChars dropTrail
  rw [List.reverse_reverse]
  exact noLeadSpace_dropWhile _

theorem noLeadSpace_map_lowerChar {l : List Char}
    (h : noLeadSpace l = true) : noLeadSpace (l.map lowerChar) = true := by
  cases l with
  | nil => rfl
  | cons c t =>
    simp only [noLeadSpace, List.map_cons, isSpc_lowerChar] at *
    exact h

/-- The cleaned `Target`/`Keyword` values are lower-case and trimmed. -/
theorem isLowerTrimmed_pyLower_pyStrip (s : String) :
    isLowerTrimmed (pyLower (pyStrip s)) = true := by
  unfold isLowerTrimmed pyLower pyStrip
  simp only [Bool.and_eq_true]
  refine ⟨⟨?_, ?_⟩, ?_⟩
  · simp [List.all_eq_true, isUpperA_lowerChar]
  · exact noLeadSpace_map_lowerChar (noLeadSpace_stripChars s.data)
  · rw [← List.map_reverse]
    exact noLeadSpace_map_lowerChar (noLeadSpace_stripChars_reverse s.data)

/-! ## Helper lemmas: lists -/

theorem dropDupsByAux_subset {α β : Type} [DecidableEq β] (key : α → β)
    (l : List α) : ∀ seen, dropDupsByAux key seen l ⊆ l := by
  induction l with
  | nil => intro seen a ha; cases ha
  | cons x xs ih =>
    intro seen a ha
    rw [dropDupsByAux] at ha
    split_ifs at ha with hc
    · exact List.mem_cons_of_mem _ (ih seen ha)
    · rcases List.mem_cons.mp ha with rfl | hm
      · exact List.mem_cons_self _ _
      · exact List.mem_cons_of_mem _ (ih _ hm)

theorem dropDupsBy_subset {α β : Type} [DecidableEq β] (key : α → β) :
    ∀ l : List α, dropDupsBy key l ⊆ l :=
  fun l => dropDupsByAux_subset key l []

theorem dropDupsByAux_not_seen {α β : Type} [DecidableEq β] (key : α → β)
    (l : List α) : ∀ seen a, a ∈ dropDupsByAux key seen l →
      key a ∉ seen := by
  induction l with
  | nil => intro seen a ha; cases ha
  | cons x xs ih =>
    intro seen a ha
    rw [dropDupsByAux] at ha
    split_ifs at ha with hc
    · exact ih seen a ha
    · rcases List.mem_cons.mp ha with rfl | hm
      · intro habs
        exact hc (List.contains_iff_exists_mem_beq.mpr ⟨_, habs, by simp⟩)
      · intro habs
        exact ih _ a hm (List.mem_cons_of_mem _ habs)

theorem dropDupsByAux_pairwise {α β : Type} [DecidableEq β] (key : α → β)
    (l : List α) : ∀ seen, (dropDupsByAux key seen l).Pairwise
      (fun a b => key a ≠ key b) := by
  induction l with
  | nil => intro seen; simp [dropDupsByAux]
  | cons x xs ih =>
    intro seen
    rw [dropDupsByAux]
    split_ifs with hc
    · exact ih seen
    · refine List.Pairwise.cons ?_ (ih _)
      intro b hb hxb
      exact dropDupsByAux_not_seen key xs _ b hb
        (hxb ▸ List.mem_cons_self _ _)

theorem dropDupsBy_pairwise {α β : Type} [DecidableEq β] (key : α → β)
    (l : List α) : (dropDupsBy key l).Pairwise (fun a b => key a ≠ key b) :=
  dropDupsByAux_pairwise key l []

theorem mem_dropDupsByAux_iff {α β : Type} [DecidableEq β] (key : α → β)
    (l : List α) : ∀ seen (b : β),
    (∃ a ∈ dropDupsByAux key seen l, key a = b) ↔
      ((∃ a ∈ l, key a = b) ∧ b ∉ seen) := by
  induction l with
  | nil => intro seen b; simp [dropDupsByAux]
  | cons x xs ih =>
    intro seen b
    rw [dropDupsByAux]
    split_ifs with hc
    · rw [ih seen b]
      constructor
      · rintro ⟨⟨a, ha, rfl⟩, hns⟩
        exact ⟨⟨a, List.mem_cons_of_mem _ ha, rfl⟩, hns⟩
      · rintro ⟨⟨a, ha, rfl⟩, hns⟩
        rcases List.mem_cons.mp ha with rfl | hm
        · refine absurd ?_ hns
          obtain ⟨b', hb', he⟩ := List.contains_iff_exists_mem_beq.mp hc
          exact (eq_of_beq he) ▸ hb'
        · exact ⟨⟨a, hm, rfl⟩, hns⟩
    · have hxseen : key x ∉ seen := by
        intro habs
        exact hc (List.contains_iff_exists_mem_beq.mpr ⟨_, habs, by simp⟩)
      constructor
      · rintro ⟨a, ha, rfl⟩
        rcases List.mem_cons.mp ha with rfl | hm
        · exact ⟨⟨a, List.mem_cons_self _ _, rfl⟩, hxseen⟩
        · obtain ⟨⟨a', ha', hk⟩, hns⟩ := (ih _ _).mp ⟨a, hm, rfl⟩
          exact ⟨⟨a', List.mem_cons_of_mem _ ha', hk⟩,
            fun habs => hns (List.mem_cons_of_mem _ habs)⟩
      · rintro ⟨⟨a, ha, rfl⟩, hns⟩
        by_cases hbk : key a = key x
        · exact ⟨x, List.mem_cons_self _ _, hbk.symm⟩
        · rcases List.mem_cons.mp ha with rfl | hm
          · exact absurd rfl hbk
          · obtain ⟨a', ha', hk⟩ := (ih (key x :: seen) (key a)).mpr
              ⟨⟨a, hm, rfl⟩, by
                intro habs
                rcases List.mem_cons.mp habs with h' | h'
                · exact hbk h'
                · exact hns h'⟩
            exact ⟨a', List.mem_cons_of_mem _ ha', hk⟩

theorem mem_dropDupsBy_iff {α β : Type} [DecidableEq β] (key : α → β)
    (l : List α) (b : β) :
    (∃ a ∈ dropDupsBy key l, key a = b) ↔ (∃ a ∈ l, key a = b) := by
  rw [dropDupsBy, mem_dropDupsByAux_iff]
  simp

theorem find?_map_pair {β : Type} (l : List String) (f : String → β)
    (c : String) (h : c ∈ l) :
    (l.map (fun n => (n, f n))).find? (fun p => p.1 == c) = some (c, f c) := by
  induction l with
  | nil => cases h
  | cons a l ih =>
    by_cases hac : a = c
    · subst hac
      simp [List.find?_cons]
    · have hc : c ∈ l := by
        rcases List.mem_cons.mp h with h' | h'
        · exact absurd h'.symm hac
        · exact h'
      simp only [List.map_cons, List.find?_cons]
      rw [show ((a, f a).1 == c) = false from by simpa using hac]
      exact ih hc

theorem find?_map_pair_none {β : Type} (l : List String) (f : String → β)
    (c : String) (h : c ∉ l) :
    (l.map (fun n => (n, f n))).find? (fun p => p.1 == c) = none := by
  rw [List.find?_eq_none]
  intro p hp
  obtain ⟨n, hn, rfl⟩ := List.mem_map.mp hp
  simp only [beq_iff_eq]
  exact fun hnc => h (hnc ▸ hn)

theorem getCellR_map_pair (l : List String) (f : String → Cell) (c : String)
    (h : c ∈ l) : getCellR (l.map (fun n => (n, f n))) c = f c := by
  unfold getCellR
  rw [find?_map_pair l f c h]

theorem getCellR_map_pair_none (l : List String) (f : String → Cell)
    (c : String) (h : c ∉ l) :
    getCellR (l.map (fun n => (n, f n))) c = Cell.na := by
  unfold getCellR
  rw [find?_map_pair_none l f c h]

theorem getCellR_select_mem {required : List String} {r : Row} {c : String}
    (h : c ∈ required) :
    getCellR (Channels.rowSelect required r) c = getCellR r c :=
  getCellR_map_pair required (fun n => getCellR r n) c h

theorem getCellR_select_not_mem {required : List String} {r : Row} {c : String}
    (h : c ∉ required) :
    getCellR (Channels.rowSelect required r) c = Cell.na :=
  getCellR_map_pair_none required (fun n => getCellR r n) c h

theorem getCellR_mapVals (r : Row) (f : String → Cell → Cell) (c : String) :
    getCellR (r.map (fun p => (p.1, f p.1 p.2))) c =
      (match r.find? (fun p => p.1 == c) with
       | some p => f c p.2
       | none => Cell.na) := by
  induction r with
  | nil => rfl
  | cons p ps ih =>
    by_cases hpc : p.1 = c
    · simp [getCellR, List.find?_cons, hpc]
    · simp only [getCellR, List.map_cons, List.find?_cons] at *
      rw [show ((p.1, f p.1 p.2).1 == c) = false from by simpa using hpc]
      exact ih

/-- Reading a selected-and-transformed row at a required column gives
the transformed original cell. -/
theorem getCellR_transform {required : List String} {r : Row} {c : String}
    (f : String → Cell → Cell) (h : c ∈ required) :
    getCellR ((Channels.rowSelect required r).map
      (fun p => (p.1, f p.1 p.2))) c = f c (getCellR r c) := by
  rw [getCellR_mapVals]
  unfold Channels.rowSelect
  rw [find?_map_pair required (fun n => getCellR r n) c h]

theorem infix_joinComma {c : String} {l : List String} (h : c ∈ l) :
    c.data <:+: (joinComma l).data := by
  induction l with
  | nil => cases h
  | cons s rest ih =>
    cases rest with
    | nil =>
      have : c = s := by simpa using h
      subst this
      exact List.infix_refl _
    | cons t ts =>
      rcases List.mem_cons.mp h with rfl | hm
      · refine ⟨[], (", " ++ joinComma (t :: ts)).data, ?_⟩
        simp [joinComma]
      · refine (ih hm).trans ⟨(s ++ ", ").data, [], ?_⟩
        simp [joinComma]

theorem pyMaxByVal_spec (x : String × Int) (xs : List (String × Int)) :
    Channels.pyMaxByVal x xs ∈ x :: xs ∧
      ∀ y ∈ x :: xs, y.2 ≤ (Channels.pyMaxByVal x xs).2 := by
  induction xs generalizing x with
  | nil => simp [Channels.pyMaxByVal]
  | cons y ys ih =>
    have step : Channels.pyMaxByVal x (y :: ys) =
        Channels.pyMaxByVal (if y.2 > x.2 then y else x) ys := by
      simp [Channels.pyMaxByVal]
    set z := if y.2 > x.2 then y else x with hz
    obtain ⟨hmem, hbd⟩ := ih z
    have hzxy : z = x ∨ z = y := by
      rw [hz]
      split
      · exact Or.inr rfl
      · exact Or.inl rfl
    have hxz : x.2 ≤ z.2 := by
      rw [hz]
      split
      · omega
      · exact le_refl _
    have hyz : y.2 ≤ z.2 := by
      rw [hz]
      split
      · exact le_refl _
      · omega
    have hzle : z.2 ≤ (Channels.pyMaxByVal z ys).2 :=
      hbd z (List.mem_cons_self _ _)
    refine ⟨?_, ?_⟩
    · rw [step]
      rcases List.mem_cons.mp hmem with h | h
      · rw [h]
        rcases hzxy with h1 | h1
        · rw [h1]
          exact List.mem_cons_self _ _
        · rw [h1]
          exact List.mem_cons_of_mem _ (List.mem_cons_self _ _)
      · exact List.mem_cons_of_mem _ (List.mem_cons_of_mem _ h)
    · intro w hw
      rw [step]
      rcases List.mem_cons.mp hw with rfl | hw'
      · exact le_trans hxz hzle
      · rcases List.mem_cons.mp hw' with rfl | hw''
        · exact le_trans hyz hzle
        · exact hbd w (List.mem_cons_of_mem _ hw'')

theorem perm_insSorted {α : Type} (le : α → α → Bool) (x : α) (l : List α) :
    List.Perm (insSorted le x l) (x :: l) := by
  induction l with
  | nil => exact List.Perm.refl _
  | cons y ys ih =>
    rw [insSorted]
    by_cases h : le x y
    · rw [if_pos h]
    · rw [if_neg h]
      exact (List.Perm.cons y ih).trans (List.Perm.swap x y ys)

theorem perm_sortBy {α : Type} (le : α → α → Bool) (l : List α) :
    List.Perm (sortBy le l) l := by
  induction l with
  | nil => exact List.Perm.refl _
  | cons x xs ih =>
    rw [sortBy]
    exact (perm_insSorted le x (sortBy le xs)).trans (List.Perm.cons x ih)

/-! ## Validation results: the flag mirrors emptiness of the error list -/

theorem chanValidate_fst (df : DataFrame) (required numeric : List String) :
    (Channels.validate_df_structure df required numeric).1 =
      (Channels.validate_df_structure df required numeric).2.isEmpty := by
  unfold Channels.validate_df_structure
  split_ifs <;> rfl

theorem kwValidate_fst (df : DataFrame) (required : List String) :
    (Keywords.validate_df_structure df required).1 =
      (Keywords.validate_df_structure df required).2.isEmpty := by
  unfold Keywords.validate_df_structure
  split_ifs <;> rfl

theorem helValidate_fst (df : Helium.HDF) :
    (Helium.validate_df_structure df).1 =
      (Helium.validate_df_structure df).2.isEmpty := by
  unfold Helium.validate_df_structure
  split_ifs with h1 h2 h3 h4
  · simp only [Bool.not_eq_true'] at h1
    exact h1.symm
  · rfl
  · -- the metric-set mismatch branch: at least one of the two message
    -- lists is non-empty
    unfold Helium.metricSetErrors
    rcases Bool.or_eq_true _ _ |>.mp h3 with h | h <;>
      simp_all
  · rfl
  · rfl

/-! ## Claim theorems -/

theorem chanRun_failure_errors (input : Except String DataFrame)
    (dir : String) (cfg : Channels.Config) :
    (Channels.run_analysis input dir cfg).1.success = false →
      (Channels.run_analysis input dir cfg).1.errors ≠ [] := by
  cases input with
  | error e => intro _; simp [Channels.run_analysis, Channels.failRes]
  | ok df =>
    have hval := chanValidate_fst df (pySet cfg.required_columns)
      (pySet cfg.numeric_columns)
    simp only [Channels.run_analysis]
    rcases hv : Channels.validate_df_structure df (pySet cfg.required_columns)
      (pySet cfg.numeric_columns) with ⟨b, errs⟩
    rw [hv] at hval
    cases b with
    | false =>
      intro _
      have hne : errs.isEmpty = false := by simpa using hval.symm
      simp only [Channels.failRes]
      intro hnil
      rw [hnil] at hne
      simp at hne
    | true =>
      dsimp only []
      split_ifs with h1
      · intro _
        simp [Channels.failRes]
      · split
        · intro _
          simp [Channels.failRes]
        · intro hsucc
          simp at hsucc

theorem kwRun_failure_errors (input : Except String DataFrame)
    (dir : String) (cfg : Keywords.Config) :
    (Keywords.run_analysis input dir cfg).1.success = false →
      (Keywords.run_analysis input dir cfg).1.errors ≠ [] := by
  cases input with
  | error e => intro _; simp [Keywords.run_analysis, Keywords.failRes]
  | ok df =>
    have hval := kwValidate_fst df (pySet cfg.required_columns)
    simp only [Keywords.run_analysis]
    rcases hv : Keywords.validate_df_structure df (pySet cfg.required_columns)
      with ⟨b, errs⟩
    rw [hv] at hval
    cases b with
    | false =>
      intro _
      have hne : errs.isEmpty = false := by simpa using hval.symm
      simp only [Keywords.failRes]
      intro hnil
      rw [hnil] at hne
      simp at hne
    | true =>
      dsimp only []
      split_ifs with h1 h2 h3
      · intro _
        simp [Keywords.failRes]
      · intro _
        simp [Keywords.failRes]
      · intro _
        simp [Keywords.failRes]
      · intro hsucc
        simp at hsucc

theorem helRun_failure_errors (input : Except String Helium.HDF)
    (dir : String) :
    (Helium.run_analysis input dir).1.success = false →
      (Helium.run_analysis input dir).1.errors ≠ [] := by
  cases input with
  | error e => intro _; simp [Helium.run_analysis, Helium.failRes]
  | ok df =>
    have hval := helValidate_fst df
    simp only [Helium.run_analysis]
    rcases hv : Helium.validate_df_structure df with ⟨b, errs⟩
    rw [hv] at hval
    cases b with
    | false =>
      intro _
      have hne : errs.isEmpty = false := by simpa using hval.symm
      simp only [Helium.failRes]
      intro hnil
      rw [hnil] at hne
      simp at hne
    | true =>
      dsimp only []
      split_ifs with h1
      · intro _
        simp [Helium.failRes]
      · split
        · intro _
          simp [Helium.failRes]
        · split
          · intro hsucc
            simp at hsucc
          · intro _
            simp [Helium.failRes]

/-- **C1.** For every pipeline and for every input, output directory and
configuration, `run_analysis` returns a result object of shape
`{success : Bool, errors : List String, artifacts : List Artifact,
summary}` — it is a total function into that result type, never raising
to the caller — and every failure is reported in-band: whenever
`success = false` the `errors` list is non-empty. -/
theorem claim_C1_run_analysis_in_band
    (chanIn kwIn : Except String DataFrame) (helIn : Except String Helium.HDF)
    (dir1 dir2 dir3 : String) (ccfg : Channels.Config) (kcfg : Keywords.Config) :
    ((Channels.run_analysis chanIn dir1 ccfg).1.success = false →
      (Channels.run_analysis chanIn dir1 ccfg).1.errors ≠ []) ∧
    ((Keywords.run_analysis kwIn dir2 kcfg).1.success = false →
      (Keywords.run_analysis kwIn dir2 kcfg).1.errors ≠ []) ∧
    ((Helium.run_analysis helIn dir3).1.success = false →
      (Helium.run_analysis helIn dir3).1.errors ≠ []) :=
  ⟨chanRun_failure_errors chanIn dir1 ccfg,
   kwRun_failure_errors kwIn dir2 kcfg,
   helRun_failure_errors helIn dir3⟩

/-- Witness for C1: a failed read reports in-band on all three
pipelines. -/
theorem claim_C1_witness :
    (Channels.run_analysis (Except.error "read failed") "out" {}).1.errors ≠ [] ∧
    (Keywords.run_analysis (Except.error "read failed") "out" {}).1.errors ≠ [] ∧
    (Helium.run_analysis (Except.error "read failed") "out").1.errors ≠ [] := by
  obtain ⟨h1, h2, h3⟩ := claim_C1_run_analysis_in_band
    (Except.error "read failed") (Except.error "read failed")
    (Except.error "read failed") "out" "out" "out" {} {}
  exact ⟨h1 rfl, h2 rfl, h3 rfl⟩

/-- **C8.** For every input file and fixed configuration, two runs of
the same pipeline's `run_analysis` produce identical summary statistics
and identical processed-CSV content: the pipelines are deterministic
functions of the parsed input and the configuration (the embedding is
pure because the source reads nothing but the input file — no clock, no
randomness, no cross-run state). -/
theorem claim_C8_deterministic
    (chanIn kwIn : Except String DataFrame) (dir : String)
    (ccfg : Channels.Config) (kcfg : Keywords.Config) :
    (Channels.run_analysis chanIn dir ccfg).1.summary =
        (Channels.run_analysis chanIn dir ccfg).1.summary ∧
      (Channels.run_analysis chanIn dir ccfg).2.writes =
        (Channels.run_analysis chanIn dir ccfg).2.writes ∧
      (Keywords.run_analysis kwIn dir kcfg).1.summary =
        (Keywords.run_analysis kwIn dir kcfg).1.summary ∧
      (Keywords.run_analysis kwIn dir kcfg).2.writes =
        (Keywords.run_analysis kwIn dir kcfg).2.writes :=
  ⟨rfl, rfl, rfl, rfl⟩

/-- **C2.** For the channel pipeline, whenever the input CSV lacks at
least one required column, `run_analysis` fails: `success = false`, the
single error string names every missing column, and nothing is written
to the output directory — the validation failure returns before the
output directory is created or any artifact is produced. -/
theorem claim_C2_missing_columns_no_writes (df : DataFrame) (dir : String)
    (cfg : Channels.Config)
    (h : missingCols df (pySet cfg.required_columns) ≠ []) :
    (Channels.run_analysis (Except.ok df) dir cfg).1.success = false ∧
    (Channels.run_analysis (Except.ok df) dir cfg).1.errors =
      [missingMsg (missingCols df (pySet cfg.required_columns))] ∧
    (∀ c ∈ missingCols df (pySet cfg.required_columns),
      c.data <:+:
        (missingMsg (missingCols df (pySet cfg.required_columns))).data) ∧
    (Channels.run_analysis (Except.ok df) dir cfg).2.writes = [] ∧
    (Channels.run_analysis (Except.ok df) dir cfg).2.dirCreated = false ∧
    (Channels.run_analysis (Except.ok df) dir cfg).1.artifacts = [] := by
  have hm : (missingCols df (pySet cfg.required_columns)).isEmpty = false := by
    cases hm : (missingCols df (pySet cfg.required_columns)).isEmpty
    · rfl
    · exact absurd (List.isEmpty_iff.mp hm) h
  have hv : Channels.validate_df_structure df (pySet cfg.required_columns)
      (pySet cfg.numeric_columns) =
      (false, [missingMsg (missingCols df (pySet cfg.required_columns))]) := by
    unfold Channels.validate_df_structure
    rw [if_pos (by simp [hm])]
  have hrun : Channels.run_analysis (Except.ok df) dir cfg =
      (Channels.failRes
        [missingMsg (missingCols df (pySet cfg.required_columns))],
       Effects.none) := by
    simp only [Channels.run_analysis, hv]
  refine ⟨?_, ?_, ?_, ?_, ?_, ?_⟩ <;>
    first
    | (intro c hc
       exact (infix_joinComma hc).trans
         ⟨"Missing columns: ".data, [], by simp [missingMsg]⟩)
    | simp [hrun, Channels.failRes, Effects.none]

/-- Witness for C2: a file with only a `Target` column fails the
default channel validation, names the missing columns and writes
nothing. -/
theorem claim_C2_witness :
    missingCols ⟨["Target"], []⟩ (pySet Channels.defaultRequired) ≠ [] ∧
    (Channels.run_analysis (Except.ok ⟨["Target"], []⟩) "out" {}).1.success = false ∧
    (Channels.run_analysis (Except.ok ⟨["Target"], []⟩) "out" {}).2.writes = [] := by
  have h : missingCols ⟨["Target"], []⟩ (pySet Channels.defaultRequired) ≠ [] := by
    decide
  have hc := claim_C2_missing_columns_no_writes ⟨["Target"], []⟩ "out" {} h
  exact ⟨h, hc.1, hc.2.2.2.1⟩

/-- **C9.** For the time-series (helium) pipeline, an input with fewer
than 3 columns named like `YYYY-MM-DD` fails validation with an error
reporting the count found, and `run_analysis` returns
`success = false` with that error — regardless of whether the 6-row and
metric-label checks pass. -/
theorem claim_C9_three_date_columns_required (df : Helium.HDF) (dir : String)
    (h : (Helium.dateCols df).length < 3) :
    (Helium.validate_df_structure df).1 = false ∧
    Helium.dateCountMsg (Helium.dateCols df).length ∈
      (Helium.validate_df_structure df).2 ∧
    (Helium.run_analysis (Except.ok df) dir).1.success = false ∧
    Helium.dateCountMsg (Helium.dateCols df).length ∈
      (Helium.run_analysis (Except.ok df) dir).1.errors := by
  have hmem : Helium.dateCountMsg (Helium.dateCols df).length ∈
      Helium.structuralErrors df := by
    unfold Helium.structuralErrors
    rw [if_pos h]
    simp
  have hne : (Helium.structuralErrors df).isEmpty = false := by
    cases h' : (Helium.structuralErrors df).isEmpty
    · rfl
    · rw [List.isEmpty_iff.mp h'] at hmem
      cases hmem
  have hv : Helium.validate_df_structure df =
      (false, Helium.structuralErrors df) := by
    unfold Helium.validate_df_structure
    rw [if_pos (by simp [hne])]
  have hrun : Helium.run_analysis (Except.ok df) dir =
      (Helium.failRes (Helium.structuralErrors df), Effects.none) := by
    simp only [Helium.run_analysis, hv]
  refine ⟨by rw [hv], by rw [hv]; exact hmem, by rw [hrun]; rfl,
    by rw [hrun]; exact hmem⟩

/-- Witness for C9: a 6-row file with a `Metric` column but no date
columns fails with the date-count message. -/
theorem claim_C9_witness :
    (Helium.dateCols ⟨6, [("Metric", [])]⟩).length < 3 ∧
    (Helium.run_analysis (Except.ok ⟨6, [("Metric", [])]⟩) "out").1.success
      = false ∧
    Helium.dateCountMsg 0 ∈
      (Helium.run_analysis (Except.ok ⟨6, [("Metric", [])]⟩) "out").1.errors := by
  have h : (Helium.dateCols (⟨6, [("Metric", [])]⟩ : Helium.HDF)).length < 3 := by
    decide
  have hc := claim_C9_three_date_columns_required ⟨6, [("Metric", [])]⟩ "out" h
  exact ⟨h, hc.2.2.1, hc.2.2.2⟩

/-- **C10.** For the helium pipeline, a date column whose values are
all `0` (or all missing) is dropped by the cleaning stage before the
melt/pivot: its name is absent from the cleaned columns (hence from the
date-indexed reshaped table), and the cleaned frame — from which the
melted value columns, the date range and the monthly aggregation are
all computed — is identical to the one obtained from the input with
that column removed entirely, so the dropped date contributes
nothing downstream. -/
theorem claim_C10_zero_date_columns_dropped (df : Helium.HDF) (c : String)
    (h : ∀ p ∈ df.cols, p.1 = c →
      (∀ x ∈ p.2, x = Cell.num 0) ∨ (∀ x ∈ p.2, x = Cell.na)) :
    c ∉ (Helium.cleanCols df).map (fun p => p.1) ∧
    Helium.cleanCols df =
      Helium.cleanCols ⟨df.nrows, df.cols.filter (fun p => p.1 ≠ c)⟩ ∧
    Helium.valueCols (Helium.cleanCols df) =
      Helium.valueCols
        (Helium.cleanCols ⟨df.nrows, df.cols.filter (fun p => p.1 ≠ c)⟩) := by
  obtain ⟨n, cols⟩ := df
  simp only at h
  have hfail : ∀ p ∈ cols, p.1 = c →
      (p.2.any Helium.cellNeZero = false ∨
       (p.2.all (fun x => decide (x = Cell.na))) = true) := by
    intro p hp hpc
    rcases h p hp hpc with hz | hna
    · left
      rw [List.any_eq_false]
      intro x hx
      rw [hz x hx]
      decide
    · right
      rw [List.all_eq_true]
      intro x hx
      simpa using hna x hx
  have hmerge : ∀ l : List (String × List Cell),
      Helium.cleanCols ⟨n, l⟩ = l.filter (fun p =>
        ((!(p.2.all (fun x => decide (x = Cell.na)))) &&
          p.2.any Helium.cellNeZero) &&
            !(Helium.droppingCols.contains p.1)) := by
    intro l
    unfold Helium.cleanCols
    rw [List.filter_filter, List.filter_filter]
  have heq : Helium.cleanCols ⟨n, cols⟩ =
      Helium.cleanCols ⟨n, cols.filter (fun p => p.1 ≠ c)⟩ := by
    rw [hmerge cols, hmerge (cols.filter (fun p => p.1 ≠ c)),
      List.filter_filter]
    apply List.filter_congr
    intro p hp
    by_cases hpc : p.1 = c
    · rcases hfail p hp hpc with hz | hna
      · simp [hz]
      · simp [hna]
    · simp [hpc]
  refine ⟨?_, heq, by rw [heq]⟩
  intro habs
  obtain ⟨p, hp, hpc⟩ := List.mem_map.mp habs
  rw [hmerge cols] at hp
  obtain ⟨hpcols, hP⟩ := List.mem_filter.mp hp
  rcases hfail p hpcols hpc with hz | hna
  · rw [hz] at hP
    simp at hP
  · rw [hna] at hP
    simp at hP

/-- A small helium frame with an all-zero date column. -/
def hdExample : Helium.HDF :=
  ⟨6, [("Metric", [Cell.str "Organic Traffic"]),
       ("2024-01-01", [Cell.num 0]),
       ("2024-02-01", [Cell.num 3])]⟩

/-- Witness for C10: the all-zero date column `2024-01-01` is dropped
by the cleaning stage and the cleaned frame equals the one computed
without it. -/
theorem claim_C10_witness :
    "2024-01-01" ∉ (Helium.cleanCols hdExample).map (fun p => p.1) ∧
    Helium.cleanCols hdExample =
      Helium.cleanCols
        ⟨hdExample.nrows,
         hdExample.cols.filter (fun p => p.1 ≠ "2024-01-01")⟩ := by
  have h : ∀ p ∈ hdExample.cols, p.1 = "2024-01-01" →
      (∀ x ∈ p.2, x = Cell.num 0) ∨ (∀ x ∈ p.2, x = Cell.na) := by
    decide
  have hc := claim_C10_zero_date_columns_dropped hdExample "2024-01-01" h
  exact ⟨hc.1, hc.2.1⟩

/-- **C6.** For the keyword pipeline with no configured `date_range`,
the window filter applied by `run_analysis` keeps exactly the rows
whose `YearMonth` lies in the closed interval
`[max YearMonth - 5, max YearMonth]` — the 6 most recent months of the
data, inclusive of the latest month. -/
theorem claim_C6_default_six_month_window (rows : List Keywords.RowKC)
    (m : Int) (hmax : Keywords.maxYm rows = some m) :
    ∀ r, r ∈ Keywords.filterWindow none rows ↔
      (r ∈ rows ∧ m - 5 ≤ r.yearMonth ∧ r.yearMonth ≤ m) := by
  intro r
  unfold Keywords.filterWindow
  rw [hmax]
  simp [List.mem_filter]

/-- Witness for C6: with months 2024-01 … 2024-08 present, exactly the
rows from 2024-03 on survive the default window. -/
theorem claim_C6_witness :
    Keywords.maxYm
      [⟨"a", 1, 1, 24288, "commercial", "non-branded"⟩,
       ⟨"b", 1, 1, 24295, "commercial", "non-branded"⟩] = some 24295 ∧
    ((⟨"a", 1, 1, 24288, "commercial", "non-branded"⟩ : Keywords.RowKC) ∈
        Keywords.filterWindow none
          [⟨"a", 1, 1, 24288, "commercial", "non-branded"⟩,
           ⟨"b", 1, 1, 24295, "commercial", "non-branded"⟩] ↔
      ((⟨"a", 1, 1, 24288, "commercial", "non-branded"⟩ : Keywords.RowKC) ∈
          [⟨"a", 1, 1, 24288, "commercial", "non-branded"⟩,
           ⟨"b", 1, 1, 24295, "commercial", "non-branded"⟩] ∧
        24295 - 5 ≤ (24288 : Int) ∧ (24288 : Int) ≤ 24295)) := by
  have hmax : Keywords.maxYm
      [⟨"a", 1, 1, 24288, "commercial", "non-branded"⟩,
       ⟨"b", 1, 1, 24295, "commercial", "non-branded"⟩] = some 24295 := by
    decide
  exact ⟨hmax,
    claim_C6_default_six_month_window _ 24295 hmax
      ⟨"a", 1, 1, 24288, "commercial", "non-branded"⟩⟩

/-- **C5.** For the keyword pipeline, every cleaned row's
`Keyword Intents` string is split on commas, each part is trimmed and
lower-cased, and the row is exploded into one output row per part, each
carrying the row's `Traffic` and `Search Volume`; parts outside the
configured valid-intent set are silently dropped — no error channel
exists in this stage.  In particular
`Keyword Intents = "Commercial, informational"` yields exactly the two
rows with intents `commercial` and `informational`. -/
theorem claim_C5_intent_explosion (rows : List Keywords.RowKM)
    (valid : List String) :
    (Keywords.filterIntents valid
        (Keywords.normIntents (Keywords.explodeIntents rows)) =
      rows.flatMap (fun r =>
        (((Keywords.splitRawIntents r.intents).map
            (fun p => pyLower (pyStrip p))).filter
          (fun i => valid.contains i)).map (fun i =>
            ⟨r.keyword, r.traffic, r.searchVol, r.yearMonth, i⟩))) ∧
    (∀ r' ∈ Keywords.filterIntents valid
        (Keywords.normIntents (Keywords.explodeIntents rows)),
      r'.intent ∈ valid) ∧
    (Keywords.filterIntents Keywords.defaultIntents
        (Keywords.normIntents (Keywords.explodeIntents
          [⟨"gin", 10, 5, 24288, Cell.str "Commercial, informational"⟩])) =
      [⟨"gin", 10, 5, 24288, "commercial"⟩,
       ⟨"gin", 10, 5, 24288, "informational"⟩]) := by
  refine ⟨?_, ?_, by decide⟩
  · induction rows with
    | nil => rfl
    | cons r rs ih =>
      simp only [Keywords.explodeIntents, List.flatMap_cons] at *
      simp only [Keywords.normIntents, Keywords.filterIntents,
        List.map_append, List.filter_append] at *
      rw [ih]
      congr 1
      simp only [List.map_map, List.filter_map, List.map_map]
      rfl
  · intro r' hr'
    have := List.of_mem_filter hr'
    simpa using this

/-- Witness for C5: a concrete exploded row's intent lies in the valid
set. -/
theorem claim_C5_witness :
    (⟨"gin", 10, 5, 24288, "commercial"⟩ : Keywords.RowKE).intent ∈
      Keywords.defaultIntents := by
  have h : (⟨"gin", 10, 5, 24288, "commercial"⟩ : Keywords.RowKE) ∈
      Keywords.filterIntents Keywords.defaultIntents
        (Keywords.normIntents (Keywords.explodeIntents
          [⟨"gin", 10, 5, 24288, Cell.str "Commercial, informational"⟩])) := by
    decide
  exact (claim_C5_intent_explosion
    [⟨"gin", 10, 5, 24288, Cell.str "Commercial, informational"⟩]
    Keywords.defaultIntents).2.1 _ h

theorem filter_eq_singleton_of_pairwise_ne {α : Type} [DecidableEq α]
    {l : List α} {k : α} (hnd : l.Pairwise (fun a b => a ≠ b)) (hk : k ∈ l) :
    l.filter (fun x => x = k) = [k] := by
  induction l with
  | nil => cases hk
  | cons a as ih =>
    rcases List.mem_cons.mp hk with rfl | hm
    · rw [List.filter_cons_of_pos (by simp)]
      have hnil : as.filter (fun x => x = k) = [] := by
        rw [List.filter_eq_nil_iff]
        intro x hx
        have := (List.pairwise_cons.mp hnd).1 x hx
        simp only [decide_eq_true_eq]
        exact fun h => this h.symm
      rw [hnil]
    · have hne := (List.pairwise_cons.mp hnd).1 k hm
      rw [List.filter_cons_of_neg (by simpa using hne)]
      exact ih (List.pairwise_cons.mp hnd).2 hm

/-- Filtering the valid (non-missing-intents) rows on a key with a
non-missing intents component is the same as filtering all rows. -/
theorem validRows_filter_key (rows : List Keywords.RowKM)
    (k : String × Int × Cell) (hna : k.2.2 ≠ Cell.na) :
    (Keywords.validRows rows).filter (fun r => Keywords.rkey r = k) =
      rows.filter (fun r => Keywords.rkey r = k) := by
  unfold Keywords.validRows
  rw [List.filter_filter]
  apply List.filter_congr
  intro r _
  by_cases hrk : Keywords.rkey r = k
  · have hne : r.intents ≠ Cell.na := by
      rw [← hrk] at hna
      exact hna
    simp [hrk, hne]
  · simp [hrk]

/-- **C4 (amended).** For the keyword pipeline, all duplicate cleaned
rows sharing the same `(keyword, month, raw Keyword-Intents value)`
group key — the key the source `groupby` actually uses — are reconciled
into a single row whose `Traffic` is the sum of the duplicates' traffic
and whose `Search Volume` is the maximum of their search volumes (so
traffic 10 and 5 reconcile to 15). -/
theorem claim_C4_amended_reconcile_raw_key (rows : List Keywords.RowKM)
    (k : String × Int × Cell) (hna : k.2.2 ≠ Cell.na)
    (hk : ∃ r ∈ rows, Keywords.rkey r = k) :
    (Keywords.sortReconciled (Keywords.reconcileRows rows)).filter
        (fun r => Keywords.rkey r = k) =
      [{ keyword := k.1, yearMonth := k.2.1, intents := k.2.2,
         traffic := ((rows.filter (fun r => Keywords.rkey r = k)).map
           (fun r => r.traffic)).sum,
         searchVol := Keywords.maxD ((rows.filter
           (fun r => Keywords.rkey r = k)).map (fun r => r.searchVol)) }] := by
  have hkmem : k ∈ Keywords.reconKeys rows := by
    obtain ⟨r, hr, hrk⟩ := hk
    have hne : r.intents ≠ Cell.na := by
      rw [← hrk] at hna
      exact hna
    have hrv : r ∈ Keywords.validRows rows :=
      List.mem_filter.mpr ⟨hr, by simpa using hne⟩
    obtain ⟨a, ha, hak⟩ := (mem_dropDupsBy_iff id _ k).mpr
      ⟨k, List.mem_map.mpr ⟨r, hrv, hrk⟩, rfl⟩
    exact hak ▸ ha
  have hpw : (Keywords.reconKeys rows).Pairwise (fun a b => a ≠ b) :=
    dropDupsBy_pairwise id _
  have hgrp : (Keywords.reconcileRows rows).filter
      (fun r => Keywords.rkey r = k) = [Keywords.aggRow rows k] := by
    unfold Keywords.reconcileRows
    rw [List.filter_map]
    have hpt : ((Keywords.reconKeys rows).filter
        ((fun r => decide (Keywords.rkey r = k)) ∘ Keywords.aggRow rows)) =
        ((Keywords.reconKeys rows).filter (fun x => x = k)) := by
      apply List.filter_congr
      intro a _
      rfl
    rw [hpt, filter_eq_singleton_of_pairwise_ne hpw hkmem]
    rfl
  have hperm : List.Perm
      ((Keywords.sortReconciled (Keywords.reconcileRows rows)).filter
        (fun r => Keywords.rkey r = k))
      ((Keywords.reconcileRows rows).filter
        (fun r => Keywords.rkey r = k)) :=
    (perm_sortBy _ _).filter _
  rw [hgrp] at hperm
  rw [List.perm_singleton.mp hperm]
  unfold Keywords.aggRow
  rw [validRows_filter_key rows k hna]

/-- Witness for the amended C4: two duplicates with traffic 10 and 5
and search volumes 2 and 7 reconcile to one row with traffic 15 and
search volume 7. -/
theorem claim_C4_amended_witness :
    (Keywords.sortReconciled (Keywords.reconcileRows
        [⟨"a", 10, 2, 24288, Cell.str "commercial"⟩,
         ⟨"a", 5, 7, 24288, Cell.str "commercial"⟩])).filter
      (fun r => Keywords.rkey r = ("a", 24288, Cell.str "commercial")) =
      [⟨"a", 15, 7, 24288, Cell.str "commercial"⟩] := by
  have h := claim_C4_amended_reconcile_raw_key
    [⟨"a", 10, 2, 24288, Cell.str "commercial"⟩,
     ⟨"a", 5, 7, 24288, Cell.str "commercial"⟩]
    ("a", 24288, Cell.str "commercial") (by decide)
    ⟨⟨"a", 10, 2, 24288, Cell.str "commercial"⟩, by decide⟩
  rw [h]
  decide

/-- The original C4 claim as stated: whenever at least two cleaned rows
share the same `(keyword, month, intent)` key — `intent` being the
normalised vocabulary value derived from the `Keyword Intents` string —
the cleaned output contains a single row for that key, with the
duplicates' traffic summed and search volume maxed. -/
def KwReconcileByIntentClaim : Prop :=
  ∀ (df : DataFrame) (required valid : List String)
    (key : String × Int × String),
    2 ≤ ((Keywords.dropEmptyKw (Keywords.cleanRows df required)).filter
      (fun r => r.keyword = key.1 ∧ r.yearMonth = key.2.1 ∧
        key.2.2 ∈ (Keywords.splitRawIntents r.intents).map
          (fun p => pyLower (pyStrip p)))).length →
    (Keywords.clean_df df required valid).filter (fun r =>
        r.keyword = key.1 ∧ r.yearMonth = key.2.1 ∧ r.intent = key.2.2) =
      [⟨key.1,
        (((Keywords.dropEmptyKw (Keywords.cleanRows df required)).filter
          (fun r => r.keyword = key.1 ∧ r.yearMonth = key.2.1 ∧
            key.2.2 ∈ (Keywords.splitRawIntents r.intents).map
              (fun p => pyLower (pyStrip p)))).map (fun r => r.traffic)).sum,
        Keywords.maxD
          (((Keywords.dropEmptyKw (Keywords.cleanRows df required)).filter
            (fun r => r.keyword = key.1 ∧ r.yearMonth = key.2.1 ∧
              key.2.2 ∈ (Keywords.splitRawIntents r.intents).map
                (fun p => pyLower (pyStrip p)))).map (fun r => r.searchVol)),
        key.2.1, key.2.2⟩]

/-- The duplicated keyword rows that refute C4 as stated: same keyword,
same month, and both rows' intents normalise to `commercial` — but the
raw `Keyword Intents` strings differ in case (`"Commercial"` vs
`"commercial"`), so the source `groupby` does not merge them. -/
def dfC4 : DataFrame :=
  ⟨["Keyword", "Traffic", "Search Volume", "Timestamp", "Keyword Intents"],
   [[("Keyword", Cell.str "a"), ("Traffic", Cell.num 10),
     ("Search Volume", Cell.num 2), ("Timestamp", Cell.str "2024-01-05"),
     ("Keyword Intents", Cell.str "Commercial")],
    [("Keyword", Cell.str "a"), ("Traffic", Cell.num 5),
     ("Search Volume", Cell.num 7), ("Timestamp", Cell.str "2024-01-15"),
     ("Keyword Intents", Cell.str "commercial")]]⟩

/-- **C4 (counterexample).** The claim as stated is false: on `dfC4`
the two duplicates for `("a", 2024-01, commercial)` are *not*
reconciled — the cleaned output keeps two rows with traffic 10 and 5
instead of one row with traffic 15, because the reconciliation groups
by the raw `Keyword Intents` string, not by the derived intent. -/
theorem claim_C4_counterexample : ¬ KwReconcileByIntentClaim := by
  intro hcl
  have h := hcl dfC4 Keywords.defaultRequired Keywords.defaultIntents
    ("a", 24288, "commercial") (by decide)
  exact absurd h (by decide)

theorem fillZero_toNumeric_num (cell : Cell) :
    ∃ n : Int, fillZero (cellToNumeric cell) = Cell.num n := by
  cases cell with
  | num n => exact ⟨n, rfl⟩
  | na => exact ⟨0, rfl⟩
  | str s =>
    cases h : parseIntQ s with
    | some n => exact ⟨n, by simp [cellToNumeric, h, fillZero]⟩
    | none => exact ⟨0, by simp [cellToNumeric, h, fillZero]⟩

theorem getCellR_transform_not_mem {required : List String} {r : Row}
    {c : String} (f : String → Cell → Cell) (h : c ∉ required) :
    getCellR ((Channels.rowSelect required r).map
      (fun p => (p.1, f p.1 p.2))) c = Cell.na := by
  rw [getCellR_mapVals]
  unfold Channels.rowSelect
  rw [find?_map_pair_none required (fun n => getCellR r n) c h]

theorem chanValidate_numeric_subset {df : DataFrame}
    {required numeric : List String}
    (h : (Channels.validate_df_structure df required numeric).1 = true) :
    ∀ c ∈ numeric, c ∈ required := by
  intro c hc
  by_contra hreq
  have hall : numeric.all (fun x => required.contains x) = false := by
    rw [List.all_eq_false]
    exact ⟨c, hc, by simpa using hreq⟩
  unfold Channels.validate_df_structure at h
  by_cases h1 : (!(missingCols df required).isEmpty) = true
  · rw [if_pos h1] at h
    simp at h
  · rw [if_neg h1, if_pos (show (!numeric.all fun x => required.contains x)
        = true by rw [hall]; rfl)] at h
    simp at h

/-- The `astype` step keeps every row unchanged in this model. -/
theorem castRows_id (rows : List Row) :
    rows.map (fun r => r.map (fun p => (p.1, astypeCell p.2))) = rows := by
  simp [astypeCell]

theorem transformCell_target_eq (numeric : List String) (cell : Cell) :
    Channels.transformCell numeric "Target" cell =
      if numeric.contains "Target" then
        fillZero (cellToNumeric (cellStripLower cell))
      else cellStripLower cell := by
  unfold Channels.transformCell
  simp

theorem transformCell_numeric {numeric : List String} {c : String}
    (h : numeric.contains c = true) (cell : Cell) :
    ∃ n : Int, Channels.transformCell numeric c cell = Cell.num n := by
  unfold Channels.transformCell
  dsimp only []
  rw [if_pos h]
  exact fillZero_toNumeric_num _

/-- **C3 (amended).** For every channel data frame that passes
validation, the cleaned dataset has pairwise-distinct `Target` values
that are non-missing, non-empty, lower-cased and trimmed, and every
numeric channel column holds integers, with non-numeric (missing)
input values mapped to zero by the coercion.  (The original claim's
non-negativity is refuted by `claim_C3_counterexample`: validation only
checks dtypes, so negative counts survive cleaning.) -/
theorem claim_C3_amended_clean_invariants (df : DataFrame)
    (required numeric : List String)
    (hval : (Channels.validate_df_structure df required numeric).1 = true) :
    ((Channels.clean_df df required numeric).rows.Pairwise
      (fun r1 r2 => getCellR r1 "Target" ≠ getCellR r2 "Target")) ∧
    (∀ r ∈ (Channels.clean_df df required numeric).rows,
      getCellR r "Target" ≠ Cell.na ∧
      getCellR r "Target" ≠ Cell.str "" ∧
      (∀ t, getCellR r "Target" = Cell.str t → isLowerTrimmed t = true)) ∧
    (∀ r ∈ (Channels.clean_df df required numeric).rows,
      ∀ c ∈ numeric, ∃ n : Int, getCellR r c = Cell.num n) ∧
    (∀ cell, cellToNumeric cell = Cell.na →
      fillZero (cellToNumeric cell) = Cell.num 0) := by
  have hrows : (Channels.clean_df df required numeric).rows =
      dropDupsBy (fun r => getCellR r "Target")
        ((((df.rows.map (Channels.rowSelect required)).map
          (fun r => r.map (fun p =>
            (p.1, Channels.transformCell numeric p.1 p.2)))).filter
              (fun r => getCellR r "Target" ≠ Cell.na)).filter
            (fun r => getCellR r "Target" ≠ Cell.str "")) := by
    simp only [Channels.clean_df]
    exact castRows_id _
  rw [hrows]
  refine ⟨dropDupsBy_pairwise _ _, ?_, ?_, fun cell h => by rw [h]; rfl⟩
  · intro r hr
    have hr2 := dropDupsBy_subset _ _ hr
    have hne2 := List.of_mem_filter hr2
    have hr1 := List.mem_of_mem_filter hr2
    have hne1 := List.of_mem_filter hr1
    have hr0 := List.mem_of_mem_filter hr1
    obtain ⟨r1, hr1m, rfl⟩ := List.mem_map.mp hr0
    obtain ⟨r0, hr0m, rfl⟩ := List.mem_map.mp hr1m
    refine ⟨by simpa using hne1, by simpa using hne2, ?_⟩
    intro t ht
    by_cases hTr : "Target" ∈ required
    · rw [getCellR_transform _ hTr] at ht
      rw [transformCell_target_eq] at ht
      by_cases hTn : numeric.contains "Target" = true
      · rw [if_pos hTn] at ht
        obtain ⟨n, hn⟩ :=
          fillZero_toNumeric_num (cellStripLower (getCellR r0 "Target"))
        rw [hn] at ht
        exact Cell.noConfusion ht
      · rw [if_neg hTn] at ht
        cases hcell : getCellR r0 "Target" with
        | str s =>
          rw [hcell] at ht
          simp only [cellStripLower] at ht
          injection ht with h'
          rw [← h']
          exact isLowerTrimmed_pyLower_pyStrip s
        | num n =>
          rw [hcell] at ht
          exact absurd ht (by simp [cellStripLower])
        | na =>
          rw [hcell] at ht
          exact absurd ht (by simp [cellStripLower])
    · rw [getCellR_transform_not_mem _ hTr] at ht
      exact Cell.noConfusion ht
  · intro r hr c hcnum
    have hr2 := dropDupsBy_subset _ _ hr
    have hr1 := List.mem_of_mem_filter hr2
    have hr0 := List.mem_of_mem_filter hr1
    obtain ⟨r1, hr1m, rfl⟩ := List.mem_map.mp hr0
    obtain ⟨r0, hr0m, rfl⟩ := List.mem_map.mp hr1m
    have hcr : c ∈ required := chanValidate_numeric_subset hval c hcnum
    rw [getCellR_transform _ hcr]
    exact transformCell_numeric
      (List.contains_iff_exists_mem_beq.mpr ⟨c, hcnum, by simp⟩) _

/-- The original C3 claim as stated: on every validated channel frame
the cleaned dataset additionally has *non-negative* integers in every
numeric column. -/
def ChannelCleanNonNegClaim : Prop :=
  ∀ (df : DataFrame) (required numeric : List String),
    (Channels.validate_df_structure df required numeric).1 = true →
    ∀ r ∈ (Channels.clean_df df required numeric).rows,
      ∀ c ∈ numeric, ∃ n : Int, getCellR r c = Cell.num n ∧ 0 ≤ n

/-- A channel frame with a negative count: it passes validation (the
validator only checks dtypes). -/
def dfC3 : DataFrame :=
  ⟨["Target", "A"],
   [[("Target", Cell.str "x"), ("A", Cell.num (-5))]]⟩

/-- **C3 (counterexample).** The claim as stated is false: `dfC3`
passes validation, yet the cleaned numeric cell still holds `-5` — the
pipeline never enforces non-negativity. -/
theorem claim_C3_counterexample : ¬ ChannelCleanNonNegClaim := by
  intro hcl
  obtain ⟨n, hn, hpos⟩ := hcl dfC3 ["Target", "A"] ["A"] (by decide)
    [("Target", Cell.str "x"), ("A", Cell.num (-5))] (by decide)
    "A" (by decide)
  have hval : getCellR [("Target", Cell.str "x"), ("A", Cell.num (-5))] "A" =
      Cell.num (-5) := by decide
  rw [hval] at hn
  injection hn with h'
  rw [← h'] at hpos
  exact absurd hpos (by decide)

/-- Witness for the amended C3: on `dfC3` (which passes validation) the
cleaned target is unique/clean and the numeric cell holds an integer. -/
theorem claim_C3_witness :
    (Channels.validate_df_structure dfC3 ["Target", "A"] ["A"]).1 = true ∧
    (∀ r ∈ (Channels.clean_df dfC3 ["Target", "A"] ["A"]).rows,
      getCellR r "Target" ≠ Cell.na ∧
      getCellR r "Target" ≠ Cell.str "" ∧
      (∀ t, getCellR r "Target" = Cell.str t → isLowerTrimmed t = true)) ∧
    (∀ r ∈ (Channels.clean_df dfC3 ["Target", "A"] ["A"]).rows,
      ∀ c ∈ ["A"], ∃ n : Int, getCellR r c = Cell.num n) := by
  have hv : (Channels.validate_df_structure dfC3 ["Target", "A"] ["A"]).1
      = true := by decide
  have h := claim_C3_amended_clean_invariants dfC3 ["Target", "A"] ["A"] hv
  exact ⟨hv, h.2.1, h.2.2.1⟩

/-- **C7.** For every successful channel run, the summary's
`top_channel` is a numeric channel column whose summed value over the
cleaned rows is maximal among all numeric channel columns. -/
theorem claim_C7_top_channel_maximal (df : DataFrame) (dir : String)
    (cfg : Channels.Config)
    (h : (Channels.run_analysis (Except.ok df) dir cfg).1.success = true) :
    ∃ s, (Channels.run_analysis (Except.ok df) dir cfg).1.summary = some s ∧
      s.top_channel ∈ pySet cfg.numeric_columns ∧
      ∀ c ∈ pySet cfg.numeric_columns,
        Channels.colSum (Channels.clean_df df (pySet cfg.required_columns)
          (pySet cfg.numeric_columns)) c ≤
        Channels.colSum (Channels.clean_df df (pySet cfg.required_columns)
          (pySet cfg.numeric_columns)) s.top_channel := by
  revert h
  simp only [Channels.run_analysis]
  rcases hv : Channels.validate_df_structure df (pySet cfg.required_columns)
    (pySet cfg.numeric_columns) with ⟨b, errs⟩
  cases b with
  | false =>
    intro h
    exact absurd h (by simp [Channels.failRes])
  | true =>
    dsimp only []
    split_ifs with h1
    · intro h
      exact absurd h (by simp [Channels.failRes])
    · rcases hlist : (pySet cfg.numeric_columns).map
        (fun c => (c, Channels.colSum (Channels.clean_df df
          (pySet cfg.required_columns) (pySet cfg.numeric_columns)) c))
        with _ | ⟨t0, ts⟩
      · intro h
        exact absurd h (by simp [Channels.failRes])
      · intro _
        obtain ⟨hmem, hbd⟩ := pyMaxByVal_spec t0 ts
        rw [← hlist] at hmem
        obtain ⟨c0, hc0, hc0eq⟩ := List.mem_map.mp hmem
        refine ⟨_, rfl, ?_, ?_⟩
        · dsimp only []
          rw [← hc0eq]
          exact hc0
        · intro c hc
          dsimp only []
          have hpair : (c, Channels.colSum (Channels.clean_df df
              (pySet cfg.required_columns) (pySet cfg.numeric_columns)) c) ∈
              t0 :: ts := by
            rw [← hlist]
            exact List.mem_map.mpr ⟨c, hc, rfl⟩
          have hle := hbd _ hpair
          rw [← hc0eq] at hle ⊢
          exact hle

/-- Witness for C7: a successful concrete run whose `top_channel` is
maximal. -/
theorem claim_C7_witness :
    (Channels.run_analysis (Except.ok dfC3) "out"
        ⟨["Target", "A"], ["A"]⟩).1.success = true ∧
    ∃ s, (Channels.run_analysis (Except.ok dfC3) "out"
        ⟨["Target", "A"], ["A"]⟩).1.summary = some s ∧
      s.top_channel ∈ pySet ["A"] ∧
      ∀ c ∈ pySet ["A"],
        Channels.colSum (Channels.clean_df dfC3 (pySet ["Target", "A"])
          (pySet ["A"])) c ≤
        Channels.colSum (Channels.clean_df dfC3 (pySet ["Target", "A"])
          (pySet ["A"])) s.top_channel := by
  have h : (Channels.run_analysis (Except.ok dfC3) "out"
      ⟨["Target", "A"], ["A"]⟩).1.success = true := by decide
  exact ⟨h, claim_C7_top_channel_maximal dfC3 "out" ⟨["Target", "A"], ["A"]⟩ h⟩
